import Mathlib

/-!
Verification development for the Chronicle AI episode-processing pipeline.

The Python sources are shallowly embedded as executable Lean definitions.
Modelling conventions, used throughout:

* The generative backend (`llm_utils._make_request`) is an oracle
  `Backend : Prompt → Option String`; `none` models an unavailable backend or
  a failed request, `some s` the raw response text (the code strips it, which
  is modelled at the call site).  A `Prompt` value records which template was
  assembled and every piece of data interpolated into it, so two equal
  `Prompt` values correspond exactly to two identical prompt strings.
* The process-lifetime response cache is an association list keyed by
  structured keys mirroring the `"narrative_" + hash(prompt)` and
  `"full_process_" + hash(prompt)` key construction; Python's `hash` is
  modelled as injective (hash collisions are ignored).
* Backend calls are logged in `LLMState.calls` so that theorems can count
  backend invocations.
* Randomness (`random.choice` in the style guide) is supplied by an explicit
  `StyleChoice` argument.
* Python floats that originate from parsed JSON literals are modelled as
  exact decimal numbers (`Dec`); float rounding of long decimals is ignored.
* Python exceptions are modelled with `Except`; only the exceptions a claim
  exercises are distinguished.
* Python string primitives are re-implemented on the code-point list
  (`String.data`) with fuel recursion so that concrete runs reduce in the
  kernel; `lower`/`strip` handle ASCII whitespace and letters only.
* Where Python's dynamic typing would store an unexpectedly-typed JSON value
  unchecked in a typed field (dataclass fields are not checked at runtime),
  the model narrows to the typed case and treats the other shapes by a
  documented default or parse failure; no claim exercises those corners.
  The JSON parser models `json.loads` on the fragment the code feeds it
  (objects, arrays, strings without \u escapes, decimal numbers without
  exponents, true/false/null).
-/

set_option maxRecDepth 4000

/-! ## Python string primitives, modelled on the code-point list -/

def isWsC (c : Char) : Bool :=
  c = ' ' || c = '\t' || c = '\n' || c = '\r'

/-- Python `str.strip()` (ASCII whitespace). -/
def trimS (s : String) : String :=
  ⟨((s.data.dropWhile isWsC).reverse.dropWhile isWsC).reverse⟩

/-- Python `str.rstrip()`. -/
def rstripS (s : String) : String :=
  ⟨(s.data.reverse.dropWhile isWsC).reverse⟩

def lowerC (c : Char) : Char :=
  if 'A' ≤ c && c ≤ 'Z' then Char.ofNat (c.toNat + 32) else c

/-- Python `str.lower()` (ASCII letters). -/
def lowerS (s : String) : String :=
  ⟨s.data.map lowerC⟩

/-- Whether `pre` is a leading segment of `cs`. -/
def listLeads : List Char → List Char → Bool
  | [], _ => true
  | _ :: _, [] => false
  | a :: as, b :: bs => a = b && listLeads as bs

/-- Python `str.startswith(pre)`. -/
def startsWithS (s pre : String) : Bool :=
  listLeads pre.data s.data

/-- Python slicing `s[:n]` (counts code points). -/
def takeS (s : String) (n : Nat) : String :=
  ⟨s.data.take n⟩

/-- Python `len(s)`. -/
def lenS (s : String) : Nat :=
  s.data.length

/-- Core of `str.split(sep)` for a non-empty separator, with fuel. -/
def splitOnAuxL : Nat → List Char → List Char → List Char → List (List Char)
  | 0, _, cs, cur => [cur.reverse ++ cs]
  | fuel + 1, sep, cs, cur =>
    if listLeads sep cs then
      cur.reverse :: splitOnAuxL fuel sep (cs.drop sep.length) []
    else
      match cs with
      | [] => [cur.reverse]
      | c :: rest => splitOnAuxL fuel sep rest (c :: cur)

/-- Python `s.split(sep)` for a non-empty `sep`. -/
def splitOnS (s sep : String) : List String :=
  (splitOnAuxL (s.data.length + 1) sep.data s.data []).map fun cs => ⟨cs⟩

/-- Python `sep.join(xs)`. -/
def joinS (sep : String) : List String → String
  | [] => ""
  | [x] => x
  | x :: rest => x ++ sep ++ joinS sep rest

/-- Python `s.replace(a, b)` for non-empty `a`. -/
def replaceS (s a b : String) : String :=
  joinS b (splitOnS s a)

/-- Python `sub in s` (substring containment). -/
def containsSubS (s sub : String) : Bool :=
  (splitOnS s sub).length > 1

/-- Python `s.splitlines()` for text without lone carriage returns. -/
def splitlinesS (s : String) : List String :=
  if s = "" then []
  else
    let parts := splitOnS s "\n"
    if parts.getLast? = some "" then parts.dropLast else parts

/-- Core of no-argument `str.split()`: split on whitespace runs, no empties. -/
def splitWsAuxL : Nat → List Char → List Char → List (List Char)
  | 0, _, cur => if cur.isEmpty then [] else [cur.reverse]
  | fuel + 1, cs, cur =>
    match cs with
    | [] => if cur.isEmpty then [] else [cur.reverse]
    | c :: rest =>
      if isWsC c then
        if cur.isEmpty then splitWsAuxL fuel rest []
        else cur.reverse :: splitWsAuxL fuel rest []
      else splitWsAuxL fuel rest (c :: cur)

/-- Python `s.split()` with no separator. -/
def pySplitWs (s : String) : List String :=
  (splitWsAuxL (s.data.length + 1) s.data []).map fun cs => ⟨cs⟩

/-- Python `s.strip(chars)`: drop the given characters from both ends. -/
def stripCharsS (chars : List Char) (s : String) : String :=
  ⟨((s.data.dropWhile (chars.contains ·)).reverse.dropWhile (chars.contains ·)).reverse⟩

/-- Python `s.strip(chars)` for the quote set used by the title generators. -/
def stripQuotesS (s : String) : String :=
  stripCharsS [ '\"', '\'' ] s

/-! ## Exact decimal numbers (Python floats parsed from JSON literals) -/

/-- A decimal number `m / 10 ^ e`. -/
structure Dec where
  m : Int
  e : Nat
deriving DecidableEq, Repr

def Dec.ofInt (n : Int) : Dec := ⟨n, 0⟩

/-- Comparison of decimals as rational numbers. -/
def Dec.ltb (a b : Dec) : Bool :=
  a.m * (10 : Int) ^ b.e < b.m * (10 : Int) ^ a.e

def Dec.leb (a b : Dec) : Bool :=
  a.m * (10 : Int) ^ b.e ≤ b.m * (10 : Int) ^ a.e

/-- Python `int()` on a float: truncation toward zero. -/
def Dec.trunc (d : Dec) : Int :=
  Int.tdiv d.m ((10 : Int) ^ d.e)

/-! ## JSON values and a model of `json.loads` -/

inductive Json where
  | null : Json
  | bool : Bool → Json
  | num : Dec → Json
  | str : String → Json
  | arr : List Json → Json
  | obj : List (String × Json) → Json

/-- Python truthiness of a parsed JSON value. -/
def Json.truthy : Json → Bool
  | .null => false
  | .bool b => b
  | .num d => d.m ≠ 0
  | .str s => s ≠ ""
  | .arr xs => !xs.isEmpty
  | .obj o => !o.isEmpty

/-- Python `dict.get(k)`: last binding wins (as in `json.loads`). -/
def jget : Json → String → Option Json
  | .obj o, k => ((o.reverse).find? (fun p => p.1 = k)).map (·.2)
  | _, _ => none

def skipWsL (cs : List Char) : List Char :=
  cs.dropWhile isWsC

def isDigitC (c : Char) : Bool :=
  '0' ≤ c && c ≤ '9'

def digitVal (c : Char) : Nat :=
  c.toNat - '0'.toNat

/-- Read a run of digits: (value, count, rest). -/
def readDigits : List Char → Nat → Nat → Nat × Nat × List Char
  | [], acc, n => (acc, n, [])
  | c :: rest, acc, n =>
    if isDigitC c then readDigits rest (acc * 10 + digitVal c) (n + 1)
    else (acc, n, c :: rest)

/-- JSON string literal body after the opening quote: (content, rest after the
closing quote).  Handles the escapes the sources exercise. -/
def readStrLit : List Char → Option (List Char × List Char)
  | [] => none
  | '\"' :: rest => some ([], rest)
  | '\\' :: e :: rest =>
    (match e with
     | '\"' => some '\"'
     | '\\' => some '\\'
     | '/' => some '/'
     | 'n' => some '\n'
     | 't' => some '\t'
     | 'r' => some '\r'
     | _ => none).bind fun c =>
      (readStrLit rest).map fun (p : List Char × List Char) => (c :: p.1, p.2)
  | c :: rest =>
    (readStrLit rest).map fun (p : List Char × List Char) => (c :: p.1, p.2)

/-- JSON number (decimal literal, no exponent): (value, rest). -/
def readNum (cs : List Char) : Option (Dec × List Char) :=
  let (neg, cs1) :=
    match cs with
    | '-' :: rest => (true, rest)
    | _ => (false, cs)
  let (ip, icount, cs2) := readDigits cs1 0 0
  if icount = 0 then none
  else
    match cs2 with
    | '.' :: cs3 =>
      let (fp, fcount, cs4) := readDigits cs3 0 0
      if fcount = 0 then none
      else
        let mag : Int := Int.ofNat (ip * 10 ^ fcount + fp)
        some (⟨if neg then -mag else mag, fcount⟩, cs4)
    | _ => some (⟨if neg then -(Int.ofNat ip) else Int.ofNat ip, 0⟩, cs2)

mutual

/-- JSON value parser (fuel-indexed). -/
def parseV : Nat → List Char → Option (Json × List Char)
  | 0, _ => none
  | fuel + 1, cs =>
    match skipWsL cs with
    | [] => none
    | c :: rest =>
      if c = '\"' then
        (readStrLit rest).map fun (p : List Char × List Char) => (Json.str ⟨p.1⟩, p.2)
      else if c = '{' then
        match skipWsL rest with
        | '}' :: rest2 => some (.obj [], rest2)
        | rest2 => (parseMems fuel rest2).map fun p => (.obj p.1, p.2)
      else if c = '[' then
        match skipWsL rest with
        | ']' :: rest2 => some (.arr [], rest2)
        | rest2 => (parseElems fuel rest2).map fun p => (.arr p.1, p.2)
      else if listLeads [ 't', 'r', 'u', 'e' ] (c :: rest) then
        some (.bool true, (c :: rest).drop 4)
      else if listLeads [ 'f', 'a', 'l', 's', 'e' ] (c :: rest) then
        some (.bool false, (c :: rest).drop 5)
      else if listLeads [ 'n', 'u', 'l', 'l' ] (c :: rest) then
        some (.null, (c :: rest).drop 4)
      else (readNum (c :: rest)).map fun p => (.num p.1, p.2)

/-- Object members, positioned at a key's opening quote. -/
def parseMems : Nat → List Char → Option (List (String × Json) × List Char)
  | 0, _ => none
  | fuel + 1, cs =>
    match cs with
    | '\"' :: rest =>
      (readStrLit rest).bind fun kp =>
        match skipWsL kp.2 with
        | ':' :: rest2 =>
          (parseV fuel rest2).bind fun vp =>
            match skipWsL vp.2 with
            | ',' :: rest3 =>
              (parseMems fuel (skipWsL rest3)).map fun mp =>
                ((⟨kp.1⟩, vp.1) :: mp.1, mp.2)
            | '}' :: rest3 => some ([(⟨kp.1⟩, vp.1)], rest3)
            | _ => none
        | _ => none
    | _ => none

/-- Array elements, positioned at the first element. -/
def parseElems : Nat → List Char → Option (List Json × List Char)
  | 0, _ => none
  | fuel + 1, cs =>
    (parseV fuel cs).bind fun vp =>
      match skipWsL vp.2 with
      | ',' :: rest => (parseElems fuel rest).map fun ep => (vp.1 :: ep.1, ep.2)
      | ']' :: rest => some ([vp.1], rest)
      | _ => none

end

/-- Model of `json.loads`: the whole input must be one JSON value. -/
def parseJson (s : String) : Option Json :=
  (parseV (s.data.length + 1) s.data).bind fun p =>
    if skipWsL p.2 = [] then some p.1 else none

/-! ## The regex extractions used on backend responses -/

/-- Greedy DOTALL search for a single-character-delimited span:
`re.search` with pattern open `.*` close matches from the first `openC`
that precedes the last `closeC`, to that last `closeC`. -/
def extractSpan (openC closeC : Char) (s : String) : Option String :=
  let cs := s.data
  match cs.findIdx? (· = openC), cs.reverse.findIdx? (· = closeC) with
  | some i, some r =>
    let j := cs.length - 1 - r
    if i < j then some ⟨(cs.drop i).take (j + 1 - i)⟩ else none
  | _, _ => none

/-- `re.search(r'\{.*\}', s, re.DOTALL)` (used by `_process_entry_full`). -/
def extractBrace (s : String) : Option String :=
  extractSpan '{' '}' s

/-- `re.search(r'\[.*\]', s, re.DOTALL)` (used by `generate_title_options`). -/
def extractBracket (s : String) : Option String :=
  extractSpan '[' ']' s

/-- The suffix starting at the first adjacent pair `c c`. -/
def suffixAtPair (c : Char) : List Char → Option (List Char)
  | [] => none
  | [_] => none
  | a :: b :: rest =>
    if a = c && b = c then some (a :: b :: rest)
    else suffixAtPair c (b :: rest)

/-- Index of the first adjacent pair `c c`. -/
def firstPairIdx (c : Char) : List Char → Option Nat
  | [] => none
  | [_] => none
  | a :: b :: rest =>
    if a = c && b = c then some 0
    else (firstPairIdx c (b :: rest)).map (· + 1)

/-- `re.search(r'{{.*}}', s, re.DOTALL)` (the pattern `generate_synopsis`
uses): the match runs from the first adjacent `\x7b\x7b` to the end of the
last adjacent `\x7d\x7d` after it. -/
def extractDoubleBrace (s : String) : Option String :=
  (suffixAtPair '{' s.data).bind fun t =>
    (firstPairIdx '}' t.reverse).map fun r =>
      ⟨t.take (t.length - r)⟩

/-! ## processor.py — segment_diary_text -/

inductive Bucket where
  | morning
  | afternoon
  | night
deriving DecidableEq, Repr

/-- The marker test of tier 1: which bucket a line's marker starts, if any
(case-insensitive, on the stripped line). -/
def markerOfLine (line : String) : Option Bucket :=
  let lower := lowerS (trimS line)
  if startsWithS lower "morning:" then some .morning
  else if startsWithS lower "afternoon:" then some .afternoon
  else if startsWithS lower "night:" || startsWithS lower "evening:" then some .night
  else none

/-- Python `stripped.split(":", 1)[1]`: everything after the first colon. -/
def afterFirstColon (s : String) : String :=
  match splitOnS s ":" with
  | [] => s
  | _ :: rest => joinS ":" rest

/-- The lists collected by the tier-1 loop, in input order. -/
structure Captured where
  morning : List String
  afternoon : List String
  night : List String
  unassigned : List String
deriving DecidableEq, Repr

def Captured.get (c : Captured) : Option Bucket → List String
  | some .morning => c.morning
  | some .afternoon => c.afternoon
  | some .night => c.night
  | none => c.unassigned

def Captured.consTo (c : Captured) (ob : Option Bucket) (x : String) : Captured :=
  match ob with
  | some .morning => { c with morning := x :: c.morning }
  | some .afternoon => { c with afternoon := x :: c.afternoon }
  | some .night => { c with night := x :: c.night }
  | none => { c with unassigned := x :: c.unassigned }

/-- The tier-1 loop of `segment_diary_text`: `current_key` starts as `cur`;
a marker line switches the key and contributes its after-colon remainder when
non-empty; any other line goes to the current key's bucket, or to
`unassigned` before the first marker. -/
def captureLines (cur : Option Bucket) : List String → Captured
  | [] => ⟨[], [], [], []⟩
  | line :: rest =>
    match markerOfLine line with
    | some b =>
      let c := captureLines (some b) rest
      let content := trimS (afterFirstColon (trimS line))
      if content = "" then c else c.consTo (some b) content
    | none =>
      let c := captureLines cur rest
      c.consTo cur line

/-- The keyword test of tier 2: first matching cue set wins. -/
def hintBucket (p : String) : Option Bucket :=
  let pl := lowerS p
  if [ "woke up", "breakfast", "8am", "9am", "10am", "morning" ].any (containsSubS pl ·) then
    some .morning
  else if [ "lunch", "1pm", "2pm", "afternoon" ].any (containsSubS pl ·) then
    some .afternoon
  else if [ "dinner", "night", "evening", "tonight", "bed" ].any (containsSubS pl ·) then
    some .night
  else none

structure Segments where
  morning : String
  afternoon : String
  night : String
deriving DecidableEq, Repr

/-- The blank-line-delimited paragraphs: `[p.strip() for p in text.split("\n\n") if p.strip()]`. -/
def paragraphsOf (text : String) : List String :=
  ((splitOnS text "\n\n").map trimS).filter (· ≠ "")

/-- `processor.segment_diary_text`: three-tier segmentation into
morning/afternoon/night. -/
def segment_diary_text (raw_text : String) : Segments :=
  if trimS raw_text = "" then ⟨ "", "", ""⟩
  else
    let text := replaceS raw_text "\r\n" "\n"
    let lines := splitlinesS text
    let cap := captureLines none lines
    if lines.any (fun l => (markerOfLine l).isSome) then
      ⟨trimS (joinS "\n" (cap.unassigned ++ cap.morning)),
       trimS (joinS "\n" cap.afternoon),
       trimS (joinS "\n" cap.night)⟩
    else
      let paragraphs := paragraphsOf text
      let hintM := paragraphs.filter (fun p => hintBucket p = some .morning)
      let hintA := paragraphs.filter (fun p => hintBucket p = some .afternoon)
      let hintN := paragraphs.filter (fun p => hintBucket p = some .night)
      let seg2 : Segments :=
        if paragraphs.length > 1 && !(hintM.isEmpty && hintA.isEmpty && hintN.isEmpty) then
          ⟨trimS (joinS "\n\n" hintM), trimS (joinS "\n\n" hintA), trimS (joinS "\n\n" hintN)⟩
        else ⟨ "", "", ""⟩
      if seg2.morning = "" && seg2.afternoon = "" && seg2.night = "" then
        let n := paragraphs.length
        if n ≥ 3 then
          let first_split := (n + 2) / 3
          let second_split := (2 * n + 2) / 3
          ⟨joinS "\n\n" (paragraphs.take first_split),
           joinS "\n\n" ((paragraphs.drop first_split).take (second_split - first_split)),
           joinS "\n\n" (paragraphs.drop second_split)⟩
        else if n = 2 then
          ⟨paragraphs[0]!, paragraphs[1]!, ""⟩
        else if n = 1 then
          ⟨paragraphs[0]!, "", ""⟩
        else ⟨ "", "", ""⟩
      else seg2

/-! ## Specification-side description of tier 1 (most-recent-marker discipline) -/

/-- The governing bucket of each line: the bucket of the most recent marker
line at or before it; `cur` for lines before the first marker. -/
def governList (cur : Option Bucket) : List String → List (Option Bucket)
  | [] => []
  | l :: ls =>
    match markerOfLine l with
    | some b => some b :: governList (some b) ls
    | none => cur :: governList cur ls

/-- What a line contributes to its bucket: a marker line its non-empty
after-colon remainder, any other line itself. -/
def lineContribution (l : String) : Option String :=
  match markerOfLine l with
  | some _ =>
    let c := trimS (afterFirstColon (trimS l))
    if c = "" then none else some c
  | none => some l

/-- The contributions the most-recent-preceding-marker discipline assigns to
bucket `ob` (with `ob = none` for the unlabeled preamble). -/
def assignedTo (cur : Option Bucket) (lines : List String) (ob : Option Bucket) : List String :=
  (lines.zip (governList cur lines)).filterMap fun p =>
    if p.2 = ob then lineContribution p.1 else none

def firstSome (a b : Option Bucket) : Option Bucket :=
  match a with
  | some x => some x
  | none => b


lemma getLast?_cons_getD (a : α) (l : List α) :
    (a :: l).getLast? = some ((l.getLast?).getD a) := by
  induction l generalizing a with
  | nil => rfl
  | cons b t ih =>
    rw [List.getLast?_cons_cons, ih b]
    simp

lemma captured_get_consTo (c : Captured) (x y : Option Bucket) (v : String) :
    (c.consTo x v).get y = if y = x then v :: c.get y else c.get y := by
  cases x with
  | none =>
    cases y with
    | none => simp [Captured.consTo, Captured.get]
    | some by2 => cases by2 <;> simp [Captured.consTo, Captured.get]
  | some bx =>
    cases y with
    | none => cases bx <;> simp [Captured.consTo, Captured.get]
    | some by2 => cases bx <;> cases by2 <;> simp [Captured.consTo, Captured.get]

/-- The tier-1 loop realises exactly the most-recent-preceding-marker
assignment. -/
lemma captureLines_eq_assignedTo (lines : List String) (cur ob : Option Bucket) :
    (captureLines cur lines).get ob = assignedTo cur lines ob := by
  induction lines generalizing cur with
  | nil =>
    rcases ob with _ | b
    · simp [captureLines, assignedTo, governList, Captured.get]
    · cases b <;> simp [captureLines, assignedTo, governList, Captured.get]
  | cons l ls ih =>
    rcases h : markerOfLine l with _ | b
    · have hl : captureLines cur (l :: ls) = (captureLines cur ls).consTo cur l := by
        simp [captureLines, h]
      rw [hl, captured_get_consTo, ih cur]
      by_cases hc : ob = cur
      · subst hc
        simp [assignedTo, governList, h, lineContribution]
      · have hc2 : ¬ (cur = ob) := fun hh => hc hh.symm
        simp [assignedTo, governList, h, lineContribution, hc, hc2]
    · by_cases hcont : trimS (afterFirstColon (trimS l)) = ""
      · have hl : captureLines cur (l :: ls) = captureLines (some b) ls := by
          simp [captureLines, h, hcont]
        rw [hl, ih (some b)]
        simp [assignedTo, governList, h, lineContribution, hcont]
      · have hl : captureLines cur (l :: ls) =
            (captureLines (some b) ls).consTo (some b) (trimS (afterFirstColon (trimS l))) := by
          simp [captureLines, h, hcont]
        rw [hl, captured_get_consTo, ih (some b)]
        by_cases hb : ob = some b
        · subst hb
          simp [assignedTo, governList, h, lineContribution, hcont]
        · have hb2 : ¬ ((some b : Option Bucket) = ob) := fun hh => hb hh.symm
          simp [assignedTo, governList, h, lineContribution, hb, hb2]

/-- `governList` computes the most recent marker at or before each index. -/
lemma governList_is_lastMarker (lines : List String) (cur : Option Bucket) (i : Nat) :
    (governList cur lines)[i]? =
      if i < lines.length then
        some (firstSome ((lines.take (i + 1)).filterMap markerOfLine).getLast? cur)
      else none := by
  induction lines generalizing cur i with
  | nil => simp [governList]
  | cons l ls ih =>
    rcases h : markerOfLine l with _ | b
    · have hg : governList cur (l :: ls) = cur :: governList cur ls := by
        simp [governList, h]
      rcases i with _ | i
      · simp [hg, List.take_succ_cons, List.filterMap_cons, h, firstSome]
      · rw [hg]
        simp only [List.getElem?_cons_succ, ih cur i, List.length_cons,
          List.take_succ_cons, List.filterMap_cons, h, Nat.add_lt_add_iff_right]
    · have hg : governList cur (l :: ls) = some b :: governList (some b) ls := by
        simp [governList, h]
      rcases i with _ | i
      · simp [hg, List.take_succ_cons, List.filterMap_cons, h, firstSome]
      · rw [hg]
        simp only [List.getElem?_cons_succ, ih (some b) i, List.length_cons,
          List.take_succ_cons, List.filterMap_cons, h, Nat.add_lt_add_iff_right]
        by_cases hi : i < ls.length
        · rw [if_pos hi, if_pos hi, getLast?_cons_getD]
          rcases h2 : ((ls.take (i + 1)).filterMap markerOfLine).getLast? with _ | y <;>
            simp [h2, firstSome]
        · rw [if_neg hi, if_neg hi]

/-- After a marker has been seen, nothing more is captured as preamble. -/
lemma captureLines_unassigned_some (ls : List String) (b : Bucket) :
    (captureLines (some b) ls).unassigned = [] := by
  induction ls generalizing b with
  | nil => simp [captureLines]
  | cons l t ih =>
    rcases h : markerOfLine l with _ | b2
    · cases b <;> simp [captureLines, h, Captured.consTo, ih]
    · by_cases hc : trimS (afterFirstColon (trimS l)) = ""
      · simp [captureLines, h, hc, ih]
      · cases b2 <;> simp [captureLines, h, hc, Captured.consTo, ih]

/-- The unlabeled preamble is exactly the run of lines before the first
marker line. -/
lemma captureLines_unassigned (lines : List String) :
    (captureLines none lines).unassigned =
      lines.takeWhile (fun l => (markerOfLine l).isNone) := by
  induction lines with
  | nil => simp [captureLines]
  | cons l ls ih =>
    rcases h : markerOfLine l with _ | b
    · simp [captureLines, h, Captured.consTo, ih]
    · by_cases hc : trimS (afterFirstColon (trimS l)) = ""
      · simp [captureLines, h, hc, captureLines_unassigned_some]
      · cases b <;> simp [captureLines, h, hc, Captured.consTo, captureLines_unassigned_some]

/-- Tier 3 of `segment_diary_text` in isolation (positional fallback). -/
def positionalOf (paragraphs : List String) : Segments :=
  let n := paragraphs.length
  if n ≥ 3 then
    let first_split := (n + 2) / 3
    let second_split := (2 * n + 2) / 3
    ⟨joinS "\n\n" (paragraphs.take first_split),
     joinS "\n\n" ((paragraphs.drop first_split).take (second_split - first_split)),
     joinS "\n\n" (paragraphs.drop second_split)⟩
  else if n = 2 then ⟨paragraphs[0]!, paragraphs[1]!, ""⟩
  else if n = 1 then ⟨paragraphs[0]!, "", ""⟩
  else ⟨ "", "", ""⟩

lemma segment_with_marker (raw : String) (h0 : trimS raw ≠ "")
    (hm : ∃ l ∈ splitlinesS (replaceS raw "\r\n" "\n"), (markerOfLine l).isSome) :
    segment_diary_text raw =
      ⟨trimS (joinS "\n" ((captureLines none (splitlinesS (replaceS raw "\r\n" "\n"))).unassigned ++
                          (captureLines none (splitlinesS (replaceS raw "\r\n" "\n"))).morning)),
       trimS (joinS "\n" (captureLines none (splitlinesS (replaceS raw "\r\n" "\n"))).afternoon),
       trimS (joinS "\n" (captureLines none (splitlinesS (replaceS raw "\r\n" "\n"))).night)⟩ := by
  have hany : (splitlinesS (replaceS raw "\r\n" "\n")).any
      (fun l => (markerOfLine l).isSome) = true :=
    List.any_eq_true.mpr hm
  simp [segment_diary_text, h0, hany]

lemma segment_fallthrough (raw : String) (h0 : trimS raw ≠ "")
    (hm : ∀ l ∈ splitlinesS (replaceS raw "\r\n" "\n"), markerOfLine l = none)
    (hh : (paragraphsOf (replaceS raw "\r\n" "\n")).length ≤ 1 ∨
          ∀ p ∈ paragraphsOf (replaceS raw "\r\n" "\n"), hintBucket p = none) :
    segment_diary_text raw = positionalOf (paragraphsOf (replaceS raw "\r\n" "\n")) := by
  have hany : (splitlinesS (replaceS raw "\r\n" "\n")).any
      (fun l => (markerOfLine l).isSome) = false := by
    rw [List.any_eq_false]
    intro x hx
    simp [hm x hx]
  rcases hh with hlen | hh
  · have hn1 : ¬ (1 < (paragraphsOf (replaceS raw "\r\n" "\n")).length) := by omega
    simp [segment_diary_text, h0, hany, hn1, positionalOf]
  · have hM : (paragraphsOf (replaceS raw "\r\n" "\n")).filter
        (fun p => hintBucket p = some .morning) = [] := by
      rw [List.filter_eq_nil_iff]
      intro x hx
      simp [hh x hx]
    have hA : (paragraphsOf (replaceS raw "\r\n" "\n")).filter
        (fun p => hintBucket p = some .afternoon) = [] := by
      rw [List.filter_eq_nil_iff]
      intro x hx
      simp [hh x hx]
    have hN : (paragraphsOf (replaceS raw "\r\n" "\n")).filter
        (fun p => hintBucket p = some .night) = [] := by
      rw [List.filter_eq_nil_iff]
      intro x hx
      simp [hh x hx]
    simp [segment_diary_text, h0, hany, hM, hA, hN, positionalOf]

/-- C7: with no time markers and no keyword hints, `segment_diary_text`
falls through to the positional split: for n ≥ 3 blank-line-delimited
paragraphs the three buckets are contiguous groups `take f`,
`drop f |>.take (s - f)`, `drop s` with `f = ⌈n/3⌉ = (n+2)/3` and
`s = ⌈2n/3⌉ = (2n+2)/3`, whose sizes sum to n and are non-increasing (earlier
groups absorb the remainder); with exactly 2 paragraphs only morning and
afternoon are filled, with 1 only morning, and with empty input all buckets
are empty. -/
theorem c7_positional_split :
    (∀ raw : String, trimS raw ≠ "" →
      (∀ l ∈ splitlinesS (replaceS raw "\r\n" "\n"), markerOfLine l = none) →
      (∀ p ∈ paragraphsOf (replaceS raw "\r\n" "\n"), hintBucket p = none) →
      3 ≤ (paragraphsOf (replaceS raw "\r\n" "\n")).length →
      segment_diary_text raw =
        ⟨joinS "\n\n" ((paragraphsOf (replaceS raw "\r\n" "\n")).take
            (((paragraphsOf (replaceS raw "\r\n" "\n")).length + 2) / 3)),
         joinS "\n\n" (((paragraphsOf (replaceS raw "\r\n" "\n")).drop
            (((paragraphsOf (replaceS raw "\r\n" "\n")).length + 2) / 3)).take
            ((2 * (paragraphsOf (replaceS raw "\r\n" "\n")).length + 2) / 3 -
             ((paragraphsOf (replaceS raw "\r\n" "\n")).length + 2) / 3)),
         joinS "\n\n" ((paragraphsOf (replaceS raw "\r\n" "\n")).drop
            ((2 * (paragraphsOf (replaceS raw "\r\n" "\n")).length + 2) / 3))⟩ ∧
      (∀ n f s : Nat, n = (paragraphsOf (replaceS raw "\r\n" "\n")).length →
        f = (n + 2) / 3 → s = (2 * n + 2) / 3 →
        f + (s - f) + (n - s) = n ∧ s - f ≤ f ∧ n - s ≤ s - f ∧
        ((paragraphsOf (replaceS raw "\r\n" "\n")).take f).length = f ∧
        (((paragraphsOf (replaceS raw "\r\n" "\n")).drop f).take (s - f)).length = s - f ∧
        ((paragraphsOf (replaceS raw "\r\n" "\n")).drop s).length = n - s)) ∧
    (∀ (raw : String) (p q : String), trimS raw ≠ "" →
      (∀ l ∈ splitlinesS (replaceS raw "\r\n" "\n"), markerOfLine l = none) →
      (∀ x ∈ paragraphsOf (replaceS raw "\r\n" "\n"), hintBucket x = none) →
      paragraphsOf (replaceS raw "\r\n" "\n") = [p, q] →
      segment_diary_text raw = ⟨p, q, ""⟩) ∧
    (∀ (raw : String) (p : String), trimS raw ≠ "" →
      (∀ l ∈ splitlinesS (replaceS raw "\r\n" "\n"), markerOfLine l = none) →
      paragraphsOf (replaceS raw "\r\n" "\n") = [p] →
      segment_diary_text raw = ⟨p, "", ""⟩) ∧
    (∀ raw : String, trimS raw = "" → segment_diary_text raw = ⟨ "", "", ""⟩) := by
  refine ⟨?_, ?_, ?_, ?_⟩
  · intro raw h0 hm hh h3
    have hseg := segment_fallthrough raw h0 hm (Or.inr hh)
    constructor
    · rw [hseg]
      simp [positionalOf, h3]
    · intro n f s hn hf hs
      subst hn hf hs
      have h1 : ((paragraphsOf (replaceS raw "\r\n" "\n")).take
          (((paragraphsOf (replaceS raw "\r\n" "\n")).length + 2) / 3)).length =
          min (((paragraphsOf (replaceS raw "\r\n" "\n")).length + 2) / 3)
            (paragraphsOf (replaceS raw "\r\n" "\n")).length := List.length_take _ _
      refine ⟨by omega, by omega, by omega, ?_, ?_, ?_⟩
      · simp only [List.length_take]
        omega
      · simp only [List.length_take, List.length_drop]
        omega
      · simp only [List.length_drop]
  · intro raw p q h0 hm hh hP
    have hseg := segment_fallthrough raw h0 hm (Or.inr hh)
    rw [hseg, hP]
    simp [positionalOf]
  · intro raw p h0 hm hP
    have hseg := segment_fallthrough raw h0 hm (Or.inl (by rw [hP]; simp))
    rw [hseg, hP]
    simp [positionalOf]
  · intro raw h0
    simp [segment_diary_text, h0]

/-- Witness for C7 at a concrete 4-paragraph input: the split is 2/1/1. -/
theorem c7_positional_split_witness :
    trimS "alpha\n\nbravo\n\ncharlie\n\ndelta" ≠ "" ∧
    (∀ l ∈ splitlinesS (replaceS "alpha\n\nbravo\n\ncharlie\n\ndelta" "\r\n" "\n"),
      markerOfLine l = none) ∧
    (∀ p ∈ paragraphsOf (replaceS "alpha\n\nbravo\n\ncharlie\n\ndelta" "\r\n" "\n"),
      hintBucket p = none) ∧
    3 ≤ (paragraphsOf (replaceS "alpha\n\nbravo\n\ncharlie\n\ndelta" "\r\n" "\n")).length ∧
    segment_diary_text "alpha\n\nbravo\n\ncharlie\n\ndelta" =
      ⟨ "alpha\n\nbravo", "charlie", "delta"⟩ := by
  refine ⟨by decide, by decide, by decide, by decide, ?_⟩
  have h := (c7_positional_split.1 "alpha\n\nbravo\n\ncharlie\n\ndelta"
    (by decide) (by decide) (by decide) (by decide)).1
  rw [h]
  decide

/-- C8: when the input contains at least one explicit
Morning:/Afternoon:/Night:/Evening: marker line (case-insensitive),
`segment_diary_text` returns from the marker tier: each line is captured into
the bucket of the most recent marker at or before it (`captureLines`, shown
equal to the most-recent-preceding-marker assignment `assignedTo` computed
from `governList`, which in turn is the last marker among the first i+1
lines); everything before the first marker is the unlabeled preamble, which
the returned value attaches to the morning bucket. -/
theorem c8_marker_tier :
    (∀ raw : String, trimS raw ≠ "" →
      (∃ l ∈ splitlinesS (replaceS raw "\r\n" "\n"), (markerOfLine l).isSome) →
      segment_diary_text raw =
        ⟨trimS (joinS "\n" ((captureLines none (splitlinesS (replaceS raw "\r\n" "\n"))).unassigned ++
                            (captureLines none (splitlinesS (replaceS raw "\r\n" "\n"))).morning)),
         trimS (joinS "\n" (captureLines none (splitlinesS (replaceS raw "\r\n" "\n"))).afternoon),
         trimS (joinS "\n" (captureLines none (splitlinesS (replaceS raw "\r\n" "\n"))).night)⟩) ∧
    (∀ (lines : List String) (cur ob : Option Bucket),
      (captureLines cur lines).get ob = assignedTo cur lines ob) ∧
    (∀ (lines : List String) (cur : Option Bucket) (i : Nat),
      (governList cur lines)[i]? =
        if i < lines.length then
          some (firstSome ((lines.take (i + 1)).filterMap markerOfLine).getLast? cur)
        else none) ∧
    (∀ lines : List String,
      (captureLines none lines).unassigned =
        lines.takeWhile (fun l => (markerOfLine l).isNone)) := by
  exact ⟨segment_with_marker, captureLines_eq_assignedTo, governList_is_lastMarker,
    captureLines_unassigned⟩

/-- Witness for C8 at a concrete input with a preamble and two markers. -/
theorem c8_marker_tier_witness :
    trimS "intro\nMorning: coffee\nwalk\nNIGHT: tea\nlate" ≠ "" ∧
    (∃ l ∈ splitlinesS (replaceS "intro\nMorning: coffee\nwalk\nNIGHT: tea\nlate" "\r\n" "\n"),
      (markerOfLine l).isSome) ∧
    segment_diary_text "intro\nMorning: coffee\nwalk\nNIGHT: tea\nlate" =
      ⟨ "intro\ncoffee\nwalk", "", "tea\nlate"⟩ := by
  refine ⟨by decide, by decide, ?_⟩
  have h := c8_marker_tier.1 "intro\nMorning: coffee\nwalk\nNIGHT: tea\nlate"
    (by decide) (by decide)
  rw [h]
  decide

/-! ## models.py — data model -/

/-- `models.ConflictAnalysis`.  `tension_level` is an `int` in the source's
sequential path and a raw JSON number on the combined path; both are
represented as a decimal. -/
structure ConflictAnalysis where
  internal_conflicts : List String
  external_conflicts : List String
  tension_level : Dec
  archetype : String
  central_conflict : String
deriving DecidableEq, Repr

/-- `ConflictAnalysis()` with all defaults. -/
def conflictDefault : ConflictAnalysis := ⟨[], [], ⟨1, 0⟩, "none", ""⟩

/-- One element of `Entry.title_options`: a dict with "title"/"pattern"/
"score" keys, each possibly missing on the combined path. -/
structure TitleOption where
  title : Option String
  pattern : Option String
  score : Option Dec
deriving DecidableEq, Repr

/-- `models.Entry` (the fields the processing pipeline touches). -/
structure Entry where
  id : Option Nat := none
  date : String := ""
  raw_text : String := ""
  narrative_text : Option String := none
  title : Option String := none
  title_options : List TitleOption := []
  conflict_data : Option ConflictAnalysis := none
  logline : Option String := none
  synopsis : Option String := none
  keywords : List String := []
deriving DecidableEq, Repr

/-- Python truthiness of an optional string field. -/
def truthyOS : Option String → Bool
  | none => false
  | some s => s ≠ ""

/-- Python `a or b` for `entry.narrative_text or entry.raw_text`. -/
def orTextS (a : Option String) (b : String) : String :=
  match a with
  | some s => if s ≠ "" then s else b
  | none => b

/-! ## llm_client.py — mood, style, prompts, cache -/

inductive Mood where
  | productive
  | reflective
  | stressful
  | relaxed
  | mysterious
  | neutral
deriving DecidableEq, Repr

def containsAny (s : String) (ws : List String) : Bool :=
  ws.any (containsSubS s ·)

/-- `llm_client.detect_mood`. -/
def detect_mood (raw_text : String) : Mood :=
  let lower_text := lowerS raw_text
  if containsAny lower_text [ "productive", "finished", "accomplished", "work", "busy" ] then
    .productive
  else if containsAny lower_text [ "sad", "reflective", "thought", "lonely", "missing" ] then
    .reflective
  else if containsAny lower_text [ "stress", "deadline", "fast", "rushed", "panic" ] then
    .stressful
  else if containsAny lower_text [ "relax", "chill", "calm", "peace", "quiet" ] then
    .relaxed
  else if containsAny lower_text [ "mystery", "weird", "strange", "dark", "unknown" ] then
    .mysterious
  else
    .neutral

/-- The random draws `CinematicStyleGuide` consumes (`random.choice` results),
passed explicitly. -/
structure StyleChoice where
  camera : String := ""
  lighting : String := ""
  atmosphere : String := ""
  sound : String := ""
  texture : String := ""
  smell : String := ""
deriving DecidableEq, Repr

/-- `CinematicStyleGuide.add_sensory_layer`: a no-op on text shorter than 10
characters, otherwise appends one sound/texture/smell sentence. -/
def add_sensory_layer (sc : StyleChoice) (text : String) : String :=
  if lenS text < 10 then text
  else
    rstripS text ++ "\n\nUnderneath it all, " ++ sc.sound ++
      " persists. There's " ++ sc.texture ++
      " in the air, accompanied by the faint scent of " ++ sc.smell ++ "."

/-- One fully-assembled prompt string, identified by its template and every
piece of data interpolated into it (truncations applied at the call sites,
as in the source; the style enhancement contributes the mood and the random
style draws). -/
inductive Prompt where
  | narrative (raw_text : String) (mood : Mood)
      (conflict : Option ConflictAnalysis) (sc : StyleChoice)
  | titleOptions (text : String)
  | title (text : String)
  | synopsis (text : String)
  | conflict (raw_text : String)
  | fullProcess (raw_text : String) (mood : Mood) (sc : StyleChoice)
deriving DecidableEq, Repr

/-- The cache keys `"narrative_" + hash(prompt)` and
`"full_process_" + hash(prompt)`, with `hash` modelled as injective. -/
inductive CacheKey where
  | narrativeKey (p : Prompt)
  | fullKey (p : Prompt)
deriving DecidableEq, Repr

inductive CacheVal where
  | strVal (s : String)
  | jsonVal (j : Json)

/-- The shared mutable state: `director_engine.cache` plus a log of backend
calls (for counting invocations). -/
structure LLMState where
  cache : List (CacheKey × CacheVal) := []
  calls : List Prompt := []

/-- The generative backend, an opaque prompt-to-text oracle
(`none` = unavailable/failed request). -/
def Backend := Prompt → Option String

def cacheGet (st : LLMState) (k : CacheKey) : Option CacheVal :=
  (st.cache.find? (fun p => p.1 = k)).map (·.2)

def cacheSet (st : LLMState) (k : CacheKey) (v : CacheVal) : LLMState :=
  { st with cache := (k, v) :: st.cache }

/-- `llm_utils._make_request`: one backend call, response stripped;
timeouts are not modelled. -/
def callB (B : Backend) (p : Prompt) (st : LLMState) : Option String × LLMState :=
  ((B p).map trimS, { st with calls := st.calls ++ [p] })

/-- Python `if result:` on the optional stripped response. -/
def resTruthy : Option String → Option String
  | some s => if s = "" then none else some s
  | none => none

/-- The Python exceptions the model distinguishes. -/
inductive PyErr where
  | nameErrorLogger
  | attributeGet
deriving DecidableEq, Repr

/-! ## JSON field readers (with the narrowings named in the header) -/

/-- `str(x)` narrowed to the string case. -/
def jsonPyStr : Json → String
  | .str s => s
  | _ => ""

/-- A string field with a default; a present non-string value is narrowed to
the default. -/
def jsonPyStrD : Option Json → String → String
  | some (.str s), _ => s
  | some _, d => d
  | none, d => d

/-- The string elements of a JSON list; any other shape is narrowed to `[]`. -/
def strListOfJson : Json → List String
  | .arr xs => xs.filterMap fun j => match j with
      | .str s => some s
      | _ => none
  | _ => []

def jsonArrD : Json → List Json
  | .arr xs => xs
  | _ => []

/-! ## llm_client.py — field generators -/

/-- The post-cache part of `generate_narrative`: backend request, sensory
enrichment and caching on success.  On a falsy result the source reaches
`logger.info(...)` at llm_client.py:109, but `logger` is never defined in
that module, so the offline fallback path raises `NameError`. -/
def narrativeRequest (B : Backend) (sc : StyleChoice) (p : Prompt) (st : LLMState) :
    Except PyErr (String × LLMState) :=
  let r1 := callB B p st
  match resTruthy r1.1 with
  | some r =>
    let v := add_sensory_layer sc r
    .ok (v, cacheSet r1.2 (.narrativeKey p) (.strVal v))
  | none => .error .nameErrorLogger

/-- `llm_client.generate_narrative`. -/
def generate_narrative (B : Backend) (sc : StyleChoice) (raw_text : String)
    (mood : Option Mood) (conflict_data : Option ConflictAnalysis) (st : LLMState) :
    Except PyErr (String × LLMState) :=
  if trimS raw_text = "" then .ok ("No diary content provided for this day.", st)
  else
    let m := mood.getD (detect_mood raw_text)
    let p := Prompt.narrative raw_text m conflict_data sc
    match cacheGet st (.narrativeKey p) with
    | some (.strVal v) =>
      if v ≠ "" then .ok (v, st) else narrativeRequest B sc p st
    | _ => narrativeRequest B sc p st

/-- `llm_client.generate_title`. -/
def generate_title (B : Backend) (text : String) (st : LLMState) : String × LLMState :=
  if trimS text = "" then ("Untitled Episode", st)
  else
    let r1 := callB B (.title (takeS text 500)) st
    match resTruthy r1.1 with
    | some r =>
      let t := trimS (stripQuotesS (trimS r))
      let words := pySplitWs t
      (if words.length > 8 then joinS " " (words.take 7) else t, r1.2)
    | none => ("Untitled Episode", r1.2)

/-- Python `float(x)` on a title option's score: a number passes through, a
missing key defaults to 0.5; any other shape is modelled as the exception
path (Python would additionally parse numeric strings; not exercised). -/
def scoreOfJson : Option Json → Except Unit Dec
  | none => .ok ⟨5, 1⟩
  | some (.num d) => .ok d
  | some _ => .error ()

/-- The normalisation loop of `generate_title_options`: dict items with a
"title" key become options (title `str()`-ed, stripped and quote-stripped,
pattern defaulting to "Unknown", score `float()`-ed defaulting to 0.5);
other items are skipped; a rejected score aborts the whole parse. -/
def validOptions : List Json → Except Unit (List TitleOption)
  | [] => .ok []
  | .obj o :: rest =>
    (match jget (.obj o) "title" with
     | some tv =>
       (scoreOfJson (jget (.obj o) "score")).bind fun scv =>
         (validOptions rest).map fun vs =>
           (⟨some (stripQuotesS (trimS (jsonPyStr tv))),
             some (jsonPyStrD (jget (.obj o) "pattern") "Unknown"),
             some scv⟩ : TitleOption) :: vs
     | none => validOptions rest)
  | _ :: rest => validOptions rest

/-- `llm_client.generate_title_options`. -/
def generate_title_options (B : Backend) (text : String) (st : LLMState) :
    List TitleOption × LLMState :=
  if trimS text = "" then
    ([⟨some "Untitled Episode", some "Default", some ⟨1, 0⟩⟩], st)
  else
    let r1 := callB B (.titleOptions (takeS text 800)) st
    let fallb := fun (st2 : LLMState) =>
      let r2 := generate_title B text st2
      ([(⟨some r2.1, some "Direct", some ⟨5, 1⟩⟩ : TitleOption)], r2.2)
    match resTruthy r1.1 with
    | some r =>
      match extractBracket r with
      | some ex =>
        match parseJson ex with
        | some (.arr xs) =>
          match validOptions xs with
          | .ok vs => if vs.isEmpty then fallb r1.2 else (vs, r1.2)
          | .error _ => fallb r1.2
        | _ => fallb r1.2
      | none => fallb r1.2
    | none => fallb r1.2

structure SynopsisData where
  logline : String
  synopsis : String
  keywords : List String
deriving DecidableEq, Repr

/-- `llm_client.generate_synopsis`: note the extraction pattern is
`r'{{.*}}'` (adjacent double braces), not `r'\{.*\}'`. -/
def generate_synopsis (B : Backend) (text : String) (st : LLMState) :
    SynopsisData × LLMState :=
  if trimS text = "" then (⟨ "", "", []⟩, st)
  else
    let r1 := callB B (.synopsis (takeS text 1500)) st
    match resTruthy r1.1 with
    | some r =>
      match (extractDoubleBrace r).bind parseJson with
      | some (.obj o) =>
        (⟨trimS (jsonPyStrD (jget (.obj o) "logline") ""),
          trimS (jsonPyStrD (jget (.obj o) "synopsis") ""),
          ((jsonArrD ((jget (.obj o) "keywords").getD (.arr []))).take 5).map
            (fun k => trimS (jsonPyStr k))⟩, r1.2)
      | _ => (⟨ "", "", []⟩, r1.2)
    | none => (⟨ "", "", []⟩, r1.2)

/-! ## conflict.py — ConflictDetector -/

/-- The markdown code-fence stripping of `analyze_entry`. -/
def stripFence (s : String) : String :=
  let t := trimS s
  if containsSubS t "```json" then
    match splitOnS t "```json" with
    | _ :: x :: _ => trimS ((splitOnS x "```").headD "")
    | _ => t
  else if containsSubS t "```" then
    match splitOnS t "```" with
    | _ :: x :: _ => trimS ((splitOnS x "```").headD "")
    | _ => t
  else t

/-- Python `int(x)` on the tension value: a number truncates toward zero, a
missing key defaults to 1; a non-numeric value is modelled as the
`ValueError` path that falls back to the keyword heuristic (Python would
additionally parse integer-literal strings, and would crash with `TypeError`
on null/lists; not exercised). -/
def tensionOfJson : Option Json → Except Unit Int
  | none => .ok 1
  | some (.num d) => .ok d.trunc
  | some _ => .error ()

/-- `ConflictDetector._fallback_analysis`: the deterministic keyword
heuristic used when the backend is unavailable or unparseable. -/
def fallback_analysis (text : String) : ConflictAnalysis :=
  let lower_text := lowerS text
  let internal :=
    (if containsAny lower_text [ "doubt", "unsure", "scared", "fear", "worried", "think if" ]
     then [ "uncertainty" ] else []) ++
    (if containsAny lower_text [ "sad", "depressed", "lonely" ]
     then [ "emotional struggle" ] else [])
  let hasPressure := containsAny lower_text [ "deadline", "work", "boss", "client", "finish" ]
  let hasEnv := containsAny lower_text [ "traffic", "broken", "rain", "storm" ]
  let external :=
    (if hasPressure then [ "pressure" ] else []) ++
    (if hasEnv then [ "environmental hurdle" ] else [])
  let archetype0 :=
    if hasEnv then "person vs environment"
    else if hasPressure then "person vs time"
    else "none"
  let part :=
    if !internal.isEmpty && external.isEmpty then ("person vs self", (⟨4, 0⟩ : Dec))
    else if !external.isEmpty then (archetype0, (⟨6, 0⟩ : Dec))
    else (archetype0, (⟨1, 0⟩ : Dec))
  ⟨internal, external, part.2, part.1, "Navigating daily challenges."⟩

/-- `ConflictDetector.analyze_entry`.  A parsed non-object raises
`AttributeError` (`.get` on it) which the source's `except` clause does not
catch; `json` decode failures and `int()` failures fall back to the keyword
heuristic. -/
def analyze_entry (B : Backend) (raw_text : String) (st : LLMState) :
    Except PyErr (ConflictAnalysis × LLMState) :=
  if trimS raw_text = "" then .ok (conflictDefault, st)
  else
    let r1 := callB B (.conflict raw_text) st
    match resTruthy r1.1 with
    | some r =>
      match parseJson (stripFence r) with
      | some (.obj o) =>
        match tensionOfJson (jget (.obj o) "tension") with
        | .ok t =>
          .ok (⟨strListOfJson ((jget (.obj o) "internal").getD (.arr [])),
                strListOfJson ((jget (.obj o) "external").getD (.arr [])),
                ⟨t, 0⟩,
                jsonPyStrD (jget (.obj o) "archetype") "none",
                jsonPyStrD (jget (.obj o) "central_conflict") ""⟩, r1.2)
        | .error _ => .ok (fallback_analysis raw_text, r1.2)
      | some _ => .error .attributeGet
      | none => .ok (fallback_analysis raw_text, r1.2)
    | none => .ok (fallback_analysis raw_text, r1.2)

/-! ## llm_client.py — combined strategy and orchestrator -/

def TitleOption.scoreD (o : TitleOption) : Dec :=
  o.score.getD ⟨0, 0⟩

/-- Python `max(options, key=lambda x: x.get('score', 0))`: the first element
of maximal score wins (`max` keeps the current element on ties). -/
def maxByScore (x : TitleOption) (rest : List TitleOption) : TitleOption :=
  rest.foldl (fun b y => if Dec.ltb b.scoreD y.scoreD then y else b) x

/-- Conversion of the combined-path title list: each element must be a dict
(anything else makes Python's `max` key function raise); a present
non-numeric score is modelled as the comparison `TypeError` (Python would
compare all-string scores lexicographically; not exercised).  Missing or
non-string "title"/"pattern" values are stored as absent. -/
def titleListOfJson : List Json → Except Unit (List TitleOption)
  | [] => .ok []
  | .obj o :: rest =>
    ((match jget (.obj o) "score" with
      | none => .ok (none : Option Dec)
      | some (.num d) => .ok (some d)
      | some _ => .error ()) : Except Unit (Option Dec)).bind fun scv =>
      (titleListOfJson rest).map fun ts =>
        (⟨(match jget (.obj o) "title" with
           | some (.str s) => some s
           | _ => none),
          (match jget (.obj o) "pattern" with
           | some (.str s) => some s
           | _ => none),
          scv⟩ : TitleOption) :: ts
  | _ :: _ => .error ()

/-- Step 1 of the combined-path population: the conflict block.  A present
non-dict "conflict" value makes `.get` raise (uncaught). -/
def populateConflict (e : Entry) (data : Json) : Except Entry Entry :=
  match jget data "conflict" with
  | none => .ok { e with conflict_data := some conflictDefault }
  | some (.obj o) =>
    let c : ConflictAnalysis :=
      ⟨strListOfJson ((jget (.obj o) "internal_conflicts").getD (.arr [])),
       strListOfJson ((jget (.obj o) "external_conflicts").getD (.arr [])),
       (match jget (.obj o) "tension_level" with
        | some (.num d) => d
        | some _ => ⟨1, 0⟩
        | none => ⟨1, 0⟩),
       jsonPyStrD (jget (.obj o) "archetype") "none",
       jsonPyStrD (jget (.obj o) "central_conflict") ""⟩
    .ok { e with conflict_data := some c }
  | some _ => .error e

/-- Step 2: the narrative block; only a truthy narrative is stored (with the
sensory layer applied); a truthy non-string value crashes the string ops. -/
def populateNarrative (sc : StyleChoice) (e : Entry) (data : Json) : Except Entry Entry :=
  match jget data "narrative" with
  | some (.str s) =>
    if s ≠ "" then .ok { e with narrative_text := some (add_sensory_layer sc s) }
    else .ok e
  | some v => if v.truthy then .error e else .ok e
  | none => .ok e

/-- Step 3: the titles block; a truthy list stores the options and sets the
title to the max-score option's title. -/
def populateTitles (e : Entry) (data : Json) : Except Entry Entry :=
  match jget data "titles" with
  | some (.arr xs) =>
    if xs.isEmpty then .ok e
    else
      match titleListOfJson xs with
      | .ok [] => .ok e
      | .ok (o1 :: orest) =>
        .ok { e with title_options := o1 :: orest, title := (maxByScore o1 orest).title }
      | .error _ => .error e
  | some v => if v.truthy then .error e else .ok e
  | none => .ok e

/-- Step 4: the metadata block; logline/synopsis/keywords are always
assigned (empty defaults when the key is absent); a present non-dict value
makes `.get` raise. -/
def populateMetadata (e : Entry) (data : Json) : Except Entry Entry :=
  match jget data "metadata" with
  | none => .ok { e with logline := some "", synopsis := some "", keywords := [] }
  | some (.obj o) =>
    .ok { e with
          logline := some (jsonPyStrD (jget (.obj o) "logline") "")
          synopsis := some (jsonPyStrD (jget (.obj o) "synopsis") "")
          keywords := strListOfJson ((jget (.obj o) "keywords").getD (.arr [])) }
  | some _ => .error e

/-- The population block shared by `_process_entry_full` and
`_populate_entry_from_data` (the source duplicates the same four
assignments).  An error models an uncaught Python exception raised
mid-population; the error payload is the entry as mutated so far. -/
def populateFromData (sc : StyleChoice) (e : Entry) (data : Json) : Except Entry Entry :=
  (populateConflict e data).bind fun e1 =>
  (populateNarrative sc e1 data).bind fun e2 =>
  (populateTitles e2 data).bind fun e3 =>
  populateMetadata e3 data

/-- `llm_client._process_entry_full`: the combined single-call strategy.
`Except.error` models the exception `process_entry` catches; its payload is
the (possibly partially mutated) entry and the state after any backend
call. -/
def _process_entry_full (B : Backend) (sc : StyleChoice) (e : Entry) (st : LLMState) :
    Except (Entry × LLMState) (Entry × LLMState) :=
  let mood := detect_mood e.raw_text
  let p := Prompt.fullProcess e.raw_text mood sc
  match
    (match cacheGet st (.fullKey p) with
     | some (.jsonVal j) => if j.truthy then some j else none
     | _ => none) with
  | some j =>
    match populateFromData sc e j with
    | .ok e2 => .ok (e2, st)
    | .error e2 => .error (e2, st)
  | none =>
    let r1 := callB B p st
    match resTruthy r1.1 with
    | some r =>
      match (extractBrace r).bind parseJson with
      | some j =>
        match populateFromData sc e j with
        | .ok e2 => .ok (e2, cacheSet r1.2 (.fullKey p) (.jsonVal j))
        | .error e2 => .error (e2, r1.2)
      | none => .error (e, r1.2)
    | none => .error (e, r1.2)

/-- `llm_client.ensure_conflict_analysis`. -/
def ensure_conflict_analysis (B : Backend) (e : Entry) (st : LLMState) :
    Except PyErr (Entry × LLMState) :=
  if e.conflict_data.isSome then .ok (e, st)
  else
    (analyze_entry B e.raw_text st).map fun p =>
      ({ e with conflict_data := some p.1 }, p.2)

/-- `llm_client.ensure_narrative`. -/
def ensure_narrative (B : Backend) (sc : StyleChoice) (e : Entry) (st : LLMState) :
    Except PyErr (Entry × LLMState) :=
  if truthyOS e.narrative_text then .ok (e, st)
  else
    (generate_narrative B sc e.raw_text none e.conflict_data st).map fun p =>
      ({ e with narrative_text := some p.1 }, p.2)

/-- `llm_client.ensure_title`: regenerates when the title or the options are
missing; the title itself is only overwritten when it was falsy. -/
def ensure_title (B : Backend) (e : Entry) (st : LLMState) : Entry × LLMState :=
  if truthyOS e.title && !e.title_options.isEmpty then (e, st)
  else
    let text := orTextS e.narrative_text e.raw_text
    let r1 := generate_title_options B text st
    let e1 := { e with title_options := r1.1 }
    match r1.1 with
    | [] => (e1, r1.2)
    | o1 :: orest =>
      if truthyOS e.title then (e1, r1.2)
      else ({ e1 with title := (maxByScore o1 orest).title }, r1.2)

/-- `llm_client.ensure_synopsis`: regenerates when any of logline, synopsis
or keywords is falsy. -/
def ensure_synopsis (B : Backend) (e : Entry) (st : LLMState) : Entry × LLMState :=
  if truthyOS e.logline && truthyOS e.synopsis && !e.keywords.isEmpty then (e, st)
  else
    let text := orTextS e.narrative_text e.raw_text
    let r1 := generate_synopsis B text st
    ({ e with
        logline := some r1.1.logline
        synopsis := some r1.1.synopsis
        keywords := r1.1.keywords }, r1.2)

/-- The sequential strategy: the four `ensure_*` steps in their fixed order. -/
def seqProcess (B : Backend) (sc : StyleChoice) (e : Entry) (st : LLMState) :
    Except PyErr (Entry × LLMState) :=
  (ensure_conflict_analysis B e st).bind fun p1 =>
  (ensure_narrative B sc p1.1 p1.2).bind fun p2 =>
  let p3 := ensure_title B p2.1 p2.2
  let p4 := ensure_synopsis B p3.1 p3.2
  .ok p4

/-- `llm_client.process_entry`: combined strategy when all four derived
groups are absent (or forced), catching its failure and falling back to the
sequential strategy; sequential strategy otherwise. -/
def process_entry (B : Backend) (sc : StyleChoice) (e : Entry) (force : Bool)
    (st : LLMState) : Except PyErr (Entry × LLMState) :=
  let is_missing_all := force ||
    (!truthyOS e.narrative_text && e.conflict_data.isNone &&
     !truthyOS e.title && !truthyOS e.synopsis)
  if is_missing_all then
    match _process_entry_full B sc e st with
    | .ok p => .ok p
    | .error p => seqProcess B sc p.1 p.2
  else
    seqProcess B sc e st

/-! ## Helper lemmas about the generators and ensure steps -/

lemma append_ne_empty (x y : String) (h : y.data ≠ []) : x ++ y ≠ "" := by
  intro hc
  have hd : (x ++ y).data = [] := by rw [hc]
  rw [String.data_append] at hd
  exact h (List.append_eq_nil.mp hd).2

lemma add_sensory_layer_ne (sc : StyleChoice) (r : String) (h : r ≠ "") :
    add_sensory_layer sc r ≠ "" := by
  unfold add_sensory_layer
  split
  · exact h
  · exact append_ne_empty _ _ (by simp)

lemma resTruthy_eq_some (o : Option String) (r : String) (h : resTruthy o = some r) :
    r ≠ "" := by
  rcases o with _ | s
  · simp [resTruthy] at h
  · by_cases hs : s = ""
    · simp [resTruthy, hs] at h
    · have hr : resTruthy (some s) = some s := by simp [resTruthy, hs]
      rw [hr] at h
      obtain rfl := Option.some.inj h
      exact hs

lemma narrativeRequest_ok_ne (B : Backend) (sc : StyleChoice) (p : Prompt)
    (st : LLMState) (v : String) (st1 : LLMState)
    (h : narrativeRequest B sc p st = .ok (v, st1)) : v ≠ "" := by
  simp only [narrativeRequest] at h
  split at h
  · next r heq =>
    obtain ⟨hv, _⟩ : add_sensory_layer sc r = v ∧ _ = st1 := by simpa using h
    subst hv
    exact add_sensory_layer_ne sc r (resTruthy_eq_some _ r heq)
  · simp at h

lemma generate_narrative_ok_ne (B : Backend) (sc : StyleChoice) (raw : String)
    (mood : Option Mood) (cd : Option ConflictAnalysis) (st : LLMState)
    (v : String) (st1 : LLMState)
    (h : generate_narrative B sc raw mood cd st = .ok (v, st1)) : v ≠ "" := by
  simp only [generate_narrative] at h
  split at h
  · obtain ⟨hv, _⟩ : "No diary content provided for this day." = v ∧ st = st1 := by
      simpa using h
    subst hv
    decide
  · split at h
    · next s heq =>
      split at h
      · next hvne =>
        obtain ⟨hv, _⟩ : s = v ∧ st = st1 := by simpa using h
        subst hv
        exact hvne
      · exact narrativeRequest_ok_ne _ _ _ _ _ _ h
    · exact narrativeRequest_ok_ne _ _ _ _ _ _ h

lemma foldl_choice_mem (f : TitleOption → TitleOption → TitleOption)
    (hf : ∀ b y, f b y = b ∨ f b y = y) :
    ∀ (rest : List TitleOption) (x : TitleOption), rest.foldl f x ∈ x :: rest := by
  intro rest
  induction rest with
  | nil => intro x; simp
  | cons y t ih =>
    intro x
    simp only [List.foldl_cons]
    rcases hf x y with h | h <;> rw [h]
    · rcases List.mem_cons.mp (ih x) with h1 | h2
      · rw [h1]; exact List.mem_cons_self _ _
      · exact List.mem_cons_of_mem _ (List.mem_cons_of_mem _ h2)
    · exact List.mem_cons_of_mem _ (ih y)

lemma maxByScore_mem (x : TitleOption) (rest : List TitleOption) :
    maxByScore x rest ∈ x :: rest := by
  unfold maxByScore
  exact foldl_choice_mem _ (fun b y => by
    by_cases h : Dec.ltb b.scoreD y.scoreD <;> simp [h]) rest x

lemma validOptions_title_isSome :
    ∀ (xs : List Json) (vs : List TitleOption), validOptions xs = .ok vs →
      ∀ o ∈ vs, o.title.isSome = true := by
  intro xs
  induction xs with
  | nil =>
    intro vs h o ho
    simp only [validOptions] at h
    obtain rfl : ([] : List TitleOption) = vs := by simpa using h
    simp at ho
  | cons x rest ih =>
    intro vs h o ho
    rcases x with _ | b | d | s | elems | flds <;> simp only [validOptions] at h
    · exact ih vs h o ho
    · exact ih vs h o ho
    · exact ih vs h o ho
    · exact ih vs h o ho
    · exact ih vs h o ho
    · rcases ht : jget (.obj flds) "title" with _ | tv
      · rw [ht] at h
        exact ih vs h o ho
      · rw [ht] at h
        rcases hs : scoreOfJson (jget (.obj flds) "score") with u | scv
        · rw [hs] at h
          simp [Except.bind] at h
        · rw [hs] at h
          rcases hr : validOptions rest with u | vs2
          · rw [hr] at h
            simp [Except.bind, Except.map] at h
          · rw [hr] at h
            simp only [Except.bind, Except.map] at h
            obtain rfl : (⟨some (stripQuotesS (trimS (jsonPyStr tv))),
                some (jsonPyStrD (jget (.obj flds) "pattern") "Unknown"),
                some scv⟩ : TitleOption) :: vs2 = vs := by
              simpa using h
            rcases List.mem_cons.mp ho with h1 | h2
            · rw [h1]; rfl
            · exact ih vs2 hr o h2

lemma generate_title_options_spec (B : Backend) (text : String) (st : LLMState) :
    (generate_title_options B text st).1 ≠ [] ∧
    ∀ o ∈ (generate_title_options B text st).1, o.title.isSome = true := by
  have single : ∀ (t pat : String) (d : Dec) (st2 : LLMState),
      (([⟨some t, some pat, some d⟩], st2) : List TitleOption × LLMState).1 ≠ [] ∧
      ∀ o ∈ (([⟨some t, some pat, some d⟩], st2) : List TitleOption × LLMState).1,
        o.title.isSome = true := by
    intro t pat d st2
    refine ⟨by simp, ?_⟩
    intro o ho
    simp only [List.mem_singleton] at ho
    rw [ho]
    rfl
  simp only [generate_title_options]
  split
  · exact single "Untitled Episode" "Default" ⟨1, 0⟩ st
  · rcases resTruthy ((callB B (.titleOptions (takeS text 800)) st).1) with _ | r
    · dsimp only
      refine ⟨by simp, ?_⟩
      intro o ho
      simp only [List.mem_singleton] at ho
      rw [ho]
      rfl
    · dsimp only
      rcases extractBracket r with _ | ex
      · dsimp only
        refine ⟨by simp, ?_⟩
        intro o ho
        simp only [List.mem_singleton] at ho
        rw [ho]
        rfl
      · dsimp only
        rcases parseJson ex with _ | j
        · dsimp only
          refine ⟨by simp, ?_⟩
          intro o ho
          simp only [List.mem_singleton] at ho
          rw [ho]
          rfl
        · rcases j with _ | b | d | s | elems | flds
          case arr =>
            dsimp only
            rcases hvo : validOptions elems with u | vs
            · dsimp only
              refine ⟨by simp, ?_⟩
              intro o ho
              simp only [List.mem_singleton] at ho
              rw [ho]
              rfl
            · dsimp only
              by_cases hvs : vs.isEmpty
              · rw [if_pos hvs]
                refine ⟨by simp, ?_⟩
                intro o ho
                simp only [List.mem_singleton] at ho
                rw [ho]
                rfl
              · rw [if_neg hvs]
                constructor
                · simpa [List.isEmpty_iff] using hvs
                · exact validOptions_title_isSome elems vs hvo
          all_goals
            dsimp only
            refine ⟨by simp, ?_⟩
            intro o ho
            simp only [List.mem_singleton] at ho
            rw [ho]
            rfl

lemma truthyOS_isSome (o : Option String) (h : truthyOS o = true) : o.isSome = true := by
  rcases o with _ | s <;> simp [truthyOS] at h ⊢

lemma ensure_conflict_ok (B : Backend) (e : Entry) (st : LLMState)
    (e1 : Entry) (st1 : LLMState)
    (h : ensure_conflict_analysis B e st = .ok (e1, st1)) :
    e1.conflict_data.isSome = true ∧ e1.narrative_text = e.narrative_text ∧
    e1.title = e.title ∧ e1.title_options = e.title_options ∧
    e1.logline = e.logline ∧ e1.synopsis = e.synopsis ∧
    e1.keywords = e.keywords ∧ e1.raw_text = e.raw_text := by
  unfold ensure_conflict_analysis at h
  split at h
  · next hs =>
    obtain ⟨he, _⟩ : e = e1 ∧ st = st1 := by simpa using h
    subst he
    exact ⟨hs, rfl, rfl, rfl, rfl, rfl, rfl, rfl⟩
  · rcases ha : analyze_entry B e.raw_text st with err | p
    · rw [ha] at h
      simp [Except.map] at h
    · rw [ha] at h
      simp only [Except.map] at h
      obtain ⟨he, _⟩ : ({ e with conflict_data := some p.1 } : Entry) = e1 ∧ p.2 = st1 := by
        simpa using h
      subst he
      exact ⟨rfl, rfl, rfl, rfl, rfl, rfl, rfl, rfl⟩

lemma ensure_narrative_ok (B : Backend) (sc : StyleChoice) (e : Entry) (st : LLMState)
    (e1 : Entry) (st1 : LLMState)
    (h : ensure_narrative B sc e st = .ok (e1, st1)) :
    truthyOS e1.narrative_text = true ∧ e1.conflict_data = e.conflict_data ∧
    e1.title = e.title ∧ e1.title_options = e.title_options ∧
    e1.logline = e.logline ∧ e1.synopsis = e.synopsis ∧
    e1.keywords = e.keywords ∧ e1.raw_text = e.raw_text := by
  unfold ensure_narrative at h
  split at h
  · next hs =>
    obtain ⟨he, _⟩ : e = e1 ∧ st = st1 := by simpa using h
    subst he
    exact ⟨hs, rfl, rfl, rfl, rfl, rfl, rfl, rfl⟩
  · rcases hg : generate_narrative B sc e.raw_text none e.conflict_data st with err | p
    · rw [hg] at h
      simp [Except.map] at h
    · rw [hg] at h
      simp only [Except.map] at h
      obtain ⟨he, _⟩ : ({ e with narrative_text := some p.1 } : Entry) = e1 ∧ p.2 = st1 := by
        simpa using h
      subst he
      refine ⟨?_, rfl, rfl, rfl, rfl, rfl, rfl, rfl⟩
      have := generate_narrative_ok_ne B sc e.raw_text none e.conflict_data st p.1 p.2
        (by rw [hg])
      simpa [truthyOS] using this

lemma ensure_title_shape (B : Backend) (e : Entry) (st : LLMState) :
    (ensure_title B e st).1.title.isSome = true ∧
    (ensure_title B e st).1.title_options ≠ [] ∧
    (ensure_title B e st).1.conflict_data = e.conflict_data ∧
    (ensure_title B e st).1.narrative_text = e.narrative_text ∧
    (ensure_title B e st).1.logline = e.logline ∧
    (ensure_title B e st).1.synopsis = e.synopsis ∧
    (ensure_title B e st).1.keywords = e.keywords ∧
    (ensure_title B e st).1.raw_text = e.raw_text := by
  simp only [ensure_title]
  split
  · next hg =>
    obtain ⟨ht, ho⟩ := Bool.and_eq_true_iff.mp hg
    refine ⟨truthyOS_isSome _ ht, ?_, rfl, rfl, rfl, rfl, rfl, rfl⟩
    simpa [List.isEmpty_iff] using ho
  · obtain ⟨hne, hall⟩ := generate_title_options_spec B (orTextS e.narrative_text e.raw_text) st
    rcases hopt : (generate_title_options B (orTextS e.narrative_text e.raw_text) st).1
      with _ | ⟨o1, orest⟩
    · exact absurd hopt hne
    · rw [hopt] at hall
      dsimp only
      by_cases ht : truthyOS e.title
      · rw [if_pos ht]
        exact ⟨truthyOS_isSome _ ht, by simp, rfl, rfl, rfl, rfl, rfl, rfl⟩
      · rw [if_neg ht]
        refine ⟨?_, by simp, rfl, rfl, rfl, rfl, rfl, rfl⟩
        exact hall _ (maxByScore_mem o1 orest)

lemma ensure_synopsis_shape (B : Backend) (e : Entry) (st : LLMState) :
    (ensure_synopsis B e st).1.logline.isSome = true ∧
    (ensure_synopsis B e st).1.synopsis.isSome = true ∧
    (ensure_synopsis B e st).1.conflict_data = e.conflict_data ∧
    (ensure_synopsis B e st).1.narrative_text = e.narrative_text ∧
    (ensure_synopsis B e st).1.title = e.title ∧
    (ensure_synopsis B e st).1.title_options = e.title_options := by
  unfold ensure_synopsis
  split
  · next hg =>
    obtain ⟨hg2, _⟩ := Bool.and_eq_true_iff.mp hg
    obtain ⟨hl, hs⟩ := Bool.and_eq_true_iff.mp hg2
    exact ⟨truthyOS_isSome _ hl, truthyOS_isSome _ hs, rfl, rfl, rfl, rfl⟩
  · exact ⟨rfl, rfl, rfl, rfl, rfl, rfl⟩

/-- Whatever happens inside the sequential strategy, a normal return leaves
conflict and narrative populated, a title assigned with non-empty options,
and the synopsis pair assigned. -/
lemma seqProcess_ok (B : Backend) (sc : StyleChoice) (e : Entry) (st : LLMState)
    (e2 : Entry) (st2 : LLMState) (h : seqProcess B sc e st = .ok (e2, st2)) :
    e2.conflict_data.isSome = true ∧ truthyOS e2.narrative_text = true ∧
    e2.title.isSome = true ∧ e2.title_options ≠ [] ∧
    e2.logline.isSome = true ∧ e2.synopsis.isSome = true := by
  unfold seqProcess at h
  rcases h1 : ensure_conflict_analysis B e st with err | p1
  · rw [h1] at h
    simp [Except.bind] at h
  · rw [h1] at h
    simp only [Except.bind] at h
    rcases h2 : ensure_narrative B sc p1.1 p1.2 with err | p2
    · rw [h2] at h
      simp [Except.bind] at h
    · rw [h2] at h
      simp only [Except.bind] at h
      have hpair : ensure_synopsis B (ensure_title B p2.1 p2.2).1
          (ensure_title B p2.1 p2.2).2 = (e2, st2) := by
        simpa using h
      have he2 : (ensure_synopsis B (ensure_title B p2.1 p2.2).1
          (ensure_title B p2.1 p2.2).2).1 = e2 := by
        rw [hpair]
      obtain ⟨hc1, -, -, -, -, -, -, -⟩ := ensure_conflict_ok B e st p1.1 p1.2 (by rw [h1])
      obtain ⟨hn2, hcf2, -, -, -, -, -, -⟩ :=
        ensure_narrative_ok B sc p1.1 p1.2 p2.1 p2.2 (by rw [h2])
      obtain ⟨ht3, ho3, hcf3, hna3, -, -, -, -⟩ := ensure_title_shape B p2.1 p2.2
      obtain ⟨hl4, hs4, hcf4, hna4, hti4, hto4⟩ :=
        ensure_synopsis_shape B (ensure_title B p2.1 p2.2).1 (ensure_title B p2.1 p2.2).2
      subst he2
      refine ⟨?_, ?_, ?_, ?_, hl4, hs4⟩
      · rw [hcf4, hcf3, hcf2]
        exact hc1
      · rw [hna4, hna3]
        exact hn2
      · rw [hti4]
        exact ht3
      · rw [hto4]
        exact ho3

/-! ## Spec-side predicates and concrete fixtures -/

/-- The entry after a processing run, when it returned normally. -/
def entryAfter (x : Except PyErr (Entry × LLMState)) : Option Entry :=
  match x with
  | .ok p => some p.1
  | .error _ => none

/-- The state after a processing run, when it returned normally. -/
def stateAfter (x : Except PyErr (Entry × LLMState)) : Option LLMState :=
  match x with
  | .ok p => some p.2
  | .error _ => none

/-- Whether the combined strategy raised. -/
def fullRaises (x : Except (Entry × LLMState) (Entry × LLMState)) : Bool :=
  match x with
  | .error _ => true
  | .ok _ => false

/-- The spec's `Complete` state: all four derived groups populated in the
truthy sense the code's own `ensure_*` short-circuits use. -/
def entryComplete (e : Entry) : Bool :=
  e.conflict_data.isSome && truthyOS e.narrative_text && truthyOS e.title &&
  !e.title_options.isEmpty && truthyOS e.logline && truthyOS e.synopsis &&
  !e.keywords.isEmpty

/-- The combined-strategy precondition: all four derived groups absent (the
exact truthiness test `process_entry` performs). -/
def fourGroupsAbsent (e : Entry) : Bool :=
  !truthyOS e.narrative_text && e.conflict_data.isNone &&
  !truthyOS e.title && !truthyOS e.synopsis

/-- The cross-field invariant of C5: a set title next to non-empty options
is the max-score option's title (ties by first occurrence). -/
def titleMatchesBest (e : Entry) : Bool :=
  match e.title, e.title_options with
  | some t, o1 :: orest => (maxByScore o1 orest).title = some t
  | _, _ => true

/-- The C3 invariant on the stored tension level. -/
def tensionInRange (e : Entry) : Bool :=
  match e.conflict_data with
  | some c => Dec.leb ⟨1, 0⟩ c.tension_level && Dec.leb c.tension_level ⟨10, 0⟩
  | none => true

/-- The C3 invariant on the stored keywords. -/
def keywordsCapped (e : Entry) : Bool :=
  e.keywords.length ≤ 5

/-- Whether `generate_narrative` crashed with the undefined-`logger`
`NameError`. -/
def raisesNameError (x : Except PyErr (String × LLMState)) : Bool :=
  match x with
  | .error .nameErrorLogger => true
  | _ => false

def scFixture : StyleChoice :=
  ⟨ "wide shot", "natural light", "calm", "a distant hum", "a cool breeze", "fresh air"⟩

def stEmpty : LLMState := ⟨[], []⟩

/-- Backend unavailable (every request fails). -/
def backendDown : Backend := fun _ => none

/-- Backend that answers every prompt with unparseable prose. -/
def backendJunk : Backend := fun _ => some "no json here at all"

/-- Backend answering the title-options prompt with one valid JSON option. -/
def backendTitlesGood : Backend := fun p =>
  match p with
  | .titleOptions _ => some "[\x7b\"title\": \"New\", \"score\": 0.9\x7d]"
  | _ => none

/-- Backend answering the combined prompt with an out-of-range tension level
and seven keywords. -/
def backendFullRich : Backend := fun p =>
  match p with
  | .fullProcess _ _ _ => some
      "\x7b\"conflict\": \x7b\"tension_level\": 15\x7d, \"metadata\": \x7b\"keywords\": [\"a\", \"b\", \"c\", \"d\", \"e\", \"f\", \"g\"]\x7d\x7d"
  | _ => none

def entryBlank : Entry := { raw_text := "hello world entry" }

def entryPopulated : Entry :=
  { raw_text := "day"
    narrative_text := some "N"
    title := some "T"
    title_options := [⟨some "T", some "Direct", some ⟨5, 1⟩⟩]
    conflict_data := some conflictDefault
    logline := some "L"
    synopsis := some "S"
    keywords := [ "k" ] }

def entryDegraded : Entry :=
  { entryPopulated with
    logline := some ""
    synopsis := some ""
    keywords := [] }

def entryStaleTitle : Entry :=
  { entryPopulated with
    title := some "Old"
    title_options := [] }

/-! ## C2 -/

/-- C2: the spec says every field generator returns a well-formed value and
never raises past its own boundary, but with the backend unavailable
`generate_narrative` reaches `logger.info(...)` (llm_client.py:109) where
`logger` is undefined, raising `NameError` instead of returning the demo
fallback. -/
theorem c2_generate_narrative_offline_raises :
    raisesNameError (generate_narrative backendDown scFixture
      "I had a busy day at work" none none stEmpty) = true := by
  decide

/-! ## C6 -/

/-- C6: on an entry whose derived fields are all populated (in the code's
truthiness sense), `process_entry` with `force := false` performs zero
backend calls and returns the entry and state unchanged — every `ensure_*`
step is a no-op, so a second call after a completed first call makes no
additional backend calls. -/
theorem c6_fully_populated_noop (B : Backend) (sc : StyleChoice) (e : Entry)
    (st : LLMState)
    (h1 : truthyOS e.narrative_text = true) (h2 : e.conflict_data.isSome = true)
    (h3 : truthyOS e.title = true) (h4 : e.title_options ≠ [])
    (h5 : truthyOS e.logline = true) (h6 : truthyOS e.synopsis = true)
    (h7 : e.keywords ≠ []) :
    process_entry B sc e false st = .ok (e, st) := by
  have hoptF : e.title_options.isEmpty = false := by
    simpa [List.isEmpty_iff] using h4
  have hkwF : e.keywords.isEmpty = false := by
    simpa [List.isEmpty_iff] using h7
  simp [process_entry, seqProcess, ensure_conflict_analysis, ensure_narrative,
    ensure_title, ensure_synopsis, h1, h2, h3, h5, h6, hoptF, hkwF, Except.bind]

/-- Witness for C6 at a concrete populated entry and an arbitrary junk
backend: the run is the identity on entry and state. -/
theorem c6_fully_populated_noop_witness :
    truthyOS entryPopulated.narrative_text = true ∧
    entryPopulated.conflict_data.isSome = true ∧
    truthyOS entryPopulated.title = true ∧ entryPopulated.title_options ≠ [] ∧
    truthyOS entryPopulated.logline = true ∧ truthyOS entryPopulated.synopsis = true ∧
    entryPopulated.keywords ≠ [] ∧
    process_entry backendJunk scFixture entryPopulated false stEmpty =
      .ok (entryPopulated, stEmpty) :=
  ⟨by decide, by decide, by decide, by decide, by decide, by decide, by decide,
   c6_fully_populated_noop backendJunk scFixture entryPopulated stEmpty
     (by decide) (by decide) (by decide) (by decide) (by decide) (by decide) (by decide)⟩

/-! ## C10 -/

/-- C10: an entry carrying the degraded all-empty synopsis triple (empty
logline, empty synopsis, no keywords) is not treated as complete: the
truthiness short-circuit in `ensure_synopsis` sees the empty values as
absent, so `process_entry` with `force := false` invokes the synopsis
backend generation again — exactly one backend call, with the synopsis
prompt built from the entry's narrative-or-raw text. -/
theorem c10_degraded_synopsis_regenerates (B : Backend) (sc : StyleChoice)
    (e : Entry) (st : LLMState)
    (h1 : truthyOS e.narrative_text = true) (h2 : e.conflict_data.isSome = true)
    (h3 : truthyOS e.title = true) (h4 : e.title_options ≠ [])
    (hl : e.logline = some "") (hs : e.synopsis = some "") (hk : e.keywords = [])
    (htext : trimS (orTextS e.narrative_text e.raw_text) ≠ "") :
    stateAfter (process_entry B sc e false st) =
      some { st with calls := st.calls ++
        [Prompt.synopsis (takeS (orTextS e.narrative_text e.raw_text) 1500)] } := by
  have hoptF : e.title_options.isEmpty = false := by
    simpa [List.isEmpty_iff] using h4
  have hlF : truthyOS e.logline = false := by
    rw [hl]
    decide
  simp only [process_entry, seqProcess, ensure_conflict_analysis, ensure_narrative,
    ensure_title, ensure_synopsis, h1, h2, h3, hlF, hoptF, Bool.false_or,
    Bool.not_true, Bool.false_and, Bool.and_false, Bool.not_false, Bool.and_true,
    Bool.true_and, if_false, if_true, Bool.false_eq_true, Bool.true_eq_false,
    Except.bind]
  simp only [generate_synopsis, if_neg htext]
  rcases resTruthy ((callB B (.synopsis (takeS (orTextS e.narrative_text e.raw_text) 1500)) st).1)
    with _ | r
  · rfl
  · dsimp only
    rcases (extractDoubleBrace r).bind parseJson with _ | j
    · rfl
    · rcases j with _ | b | d | s | elems | flds <;> rfl

/-- Witness for C10: on the concrete degraded entry a junk backend is asked
for the synopsis again. -/
theorem c10_degraded_synopsis_regenerates_witness :
    truthyOS entryDegraded.narrative_text = true ∧
    entryDegraded.conflict_data.isSome = true ∧
    truthyOS entryDegraded.title = true ∧ entryDegraded.title_options ≠ [] ∧
    entryDegraded.logline = some "" ∧ entryDegraded.synopsis = some "" ∧
    entryDegraded.keywords = [] ∧
    trimS (orTextS entryDegraded.narrative_text entryDegraded.raw_text) ≠ "" ∧
    stateAfter (process_entry backendJunk scFixture entryDegraded false stEmpty) =
      some { stEmpty with calls := stEmpty.calls ++
        [Prompt.synopsis (takeS (orTextS entryDegraded.narrative_text
          entryDegraded.raw_text) 1500)] } :=
  ⟨by decide, by decide, by decide, by decide, by decide, by decide, by decide, by decide,
   c10_degraded_synopsis_regenerates backendJunk scFixture entryDegraded stEmpty
     (by decide) (by decide) (by decide) (by decide) (by decide) (by decide)
     (by decide) (by decide)⟩

/-! ## C1 -/

/-- Counterexample to C1 as stated: with a backend that answers every prompt
with unparseable prose, the combined path raises and `process_entry` falls
back to the sequential strategy — but the returned entry is not `Complete`:
the synopsis parse fails too, so the logline/synopsis fields hold the empty
fallback strings, which the code's own short-circuits treat as absent. -/
theorem c1_not_complete_counterexample :
    fourGroupsAbsent entryBlank = true ∧
    fullRaises (_process_entry_full backendJunk scFixture entryBlank stEmpty) = true ∧
    (entryAfter (process_entry backendJunk scFixture entryBlank false stEmpty)).map
      entryComplete = some false ∧
    (entryAfter (process_entry backendJunk scFixture entryBlank false stEmpty)).map
      (fun e2 => e2.logline) = some (some "") :=
  ⟨by decide, by decide, by decide, by decide⟩

/-- C1 (amended): when all four derived groups are absent and the combined
single-call path raises, `process_entry` catches the failure and runs the
sequential strategy; if that returns normally, the entry has conflict and
narrative populated, a title assigned with non-empty options, and the
logline/synopsis pair assigned — though possibly as the empty fallback
strings, so the populated (`Complete`) state is not guaranteed. -/
theorem c1_combined_failure_fallback (B : Backend) (sc : StyleChoice) (e : Entry)
    (st : LLMState) (e2 : Entry) (st2 : LLMState)
    (habs : fourGroupsAbsent e = true)
    (hfail : fullRaises (_process_entry_full B sc e st) = true)
    (hok : process_entry B sc e false st = .ok (e2, st2)) :
    e2.conflict_data.isSome = true ∧ truthyOS e2.narrative_text = true ∧
    e2.title.isSome = true ∧ e2.title_options ≠ [] ∧
    e2.logline.isSome = true ∧ e2.synopsis.isSome = true := by
  simp only [process_entry, Bool.false_or] at hok
  rw [show (!truthyOS e.narrative_text && e.conflict_data.isNone &&
      !truthyOS e.title && !truthyOS e.synopsis) = true from by
    simpa [fourGroupsAbsent] using habs] at hok
  rw [if_pos rfl] at hok
  rcases hf : _process_entry_full B sc e st with p | p
  · rw [hf] at hok
    exact seqProcess_ok B sc p.1 p.2 e2 st2 hok
  · rw [hf] at hfail
    simp [fullRaises] at hfail

/-- Witness for C1 (amended) at the concrete junk-backend run, which does
return normally. -/
theorem c1_combined_failure_fallback_witness :
    fourGroupsAbsent entryBlank = true ∧
    fullRaises (_process_entry_full backendJunk scFixture entryBlank stEmpty) = true ∧
    (entryAfter (process_entry backendJunk scFixture entryBlank false stEmpty)).map
      (fun e2 => e2.conflict_data.isSome && truthyOS e2.narrative_text &&
        e2.title.isSome && !e2.title_options.isEmpty &&
        e2.logline.isSome && e2.synopsis.isSome) = some true := by
  refine ⟨by decide, by decide, ?_⟩
  have hsome : (entryAfter (process_entry backendJunk scFixture entryBlank false
      stEmpty)).isSome = true := by decide
  rcases hp : process_entry backendJunk scFixture entryBlank false stEmpty with err | p
  · rw [hp] at hsome
    simp [entryAfter] at hsome
  · have h6 := c1_combined_failure_fallback backendJunk scFixture entryBlank stEmpty
      p.1 p.2 (by decide) (by decide) (by rw [hp])
    obtain ⟨a, b, c, d, f, g⟩ := h6
    have hd : p.1.title_options.isEmpty = false := by
      simpa [List.isEmpty_iff] using d
    simp [entryAfter, a, b, c, f, g, hd]

/-! ## C5 -/

lemma populateConflict_title_frame (e : Entry) (data : Json) (e1 : Entry)
    (h : populateConflict e data = .ok e1) :
    e1.title = e.title ∧ e1.title_options = e.title_options := by
  unfold populateConflict at h
  split at h
  · obtain rfl : ({ e with conflict_data := some conflictDefault } : Entry) = e1 := by
      simpa using h
    exact ⟨rfl, rfl⟩
  · obtain rfl : _ = e1 := by simpa using h
    exact ⟨rfl, rfl⟩
  · simp at h

lemma populateNarrative_title_frame (sc : StyleChoice) (e : Entry) (data : Json)
    (e1 : Entry) (h : populateNarrative sc e data = .ok e1) :
    e1.title = e.title ∧ e1.title_options = e.title_options := by
  unfold populateNarrative at h
  split at h
  · split at h
    · obtain rfl : _ = e1 := by simpa using h
      exact ⟨rfl, rfl⟩
    · obtain rfl : e = e1 := by simpa using h
      exact ⟨rfl, rfl⟩
  · split at h
    · simp at h
    · obtain rfl : e = e1 := by simpa using h
      exact ⟨rfl, rfl⟩
  · obtain rfl : e = e1 := by simpa using h
    exact ⟨rfl, rfl⟩

lemma populateMetadata_title_frame (e : Entry) (data : Json) (e1 : Entry)
    (h : populateMetadata e data = .ok e1) :
    e1.title = e.title ∧ e1.title_options = e.title_options := by
  unfold populateMetadata at h
  split at h
  · obtain rfl : _ = e1 := by simpa using h
    exact ⟨rfl, rfl⟩
  · obtain rfl : _ = e1 := by simpa using h
    exact ⟨rfl, rfl⟩
  · simp at h

lemma populateTitles_shape (e : Entry) (data : Json) (e1 : Entry)
    (h : populateTitles e data = .ok e1) :
    (e1.title = e.title ∧ e1.title_options = e.title_options) ∨
    (∃ o1 orest, e1.title_options = o1 :: orest ∧
      e1.title = (maxByScore o1 orest).title) := by
  unfold populateTitles at h
  split at h
  · split at h
    · obtain rfl : e = e1 := by simpa using h
      exact Or.inl ⟨rfl, rfl⟩
    · split at h
      · obtain rfl : e = e1 := by simpa using h
        exact Or.inl ⟨rfl, rfl⟩
      · next o1 orest heq =>
        obtain rfl : _ = e1 := by simpa using h
        exact Or.inr ⟨o1, orest, rfl, rfl⟩
      · simp at h
  · split at h
    · simp at h
    · obtain rfl : e = e1 := by simpa using h
      exact Or.inl ⟨rfl, rfl⟩
  · obtain rfl : e = e1 := by simpa using h
    exact Or.inl ⟨rfl, rfl⟩

/-- The combined-path population either leaves title and options untouched
or sets the title to the max-score option of the options it stores. -/
lemma populateFromData_title_shape (sc : StyleChoice) (e : Entry) (data : Json)
    (e2 : Entry) (h : populateFromData sc e data = .ok e2) :
    (e2.title = e.title ∧ e2.title_options = e.title_options) ∨
    (∃ o1 orest, e2.title_options = o1 :: orest ∧
      e2.title = (maxByScore o1 orest).title) := by
  unfold populateFromData at h
  rcases h1 : populateConflict e data with u | a
  · rw [h1] at h
    simp [Except.bind] at h
  · rw [h1] at h
    simp only [Except.bind] at h
    rcases h2 : populateNarrative sc a data with u | b
    · rw [h2] at h
      simp [Except.bind] at h
    · rw [h2] at h
      simp only [Except.bind] at h
      rcases h3 : populateTitles b data with u | c
      · rw [h3] at h
        simp [Except.bind] at h
      · rw [h3] at h
        simp only [Except.bind] at h
        obtain ⟨hta, hoa⟩ := populateConflict_title_frame e data a h1
        obtain ⟨htb, hob⟩ := populateNarrative_title_frame sc a data b h2
        obtain ⟨htm, hom⟩ := populateMetadata_title_frame c data e2 h
        rcases populateTitles_shape b data c h3 with ⟨htc, hoc⟩ | ⟨o1, orest, hoc, htc⟩
        · exact Or.inl ⟨by rw [htm, htc, htb, hta], by rw [hom, hoc, hob, hoa]⟩
        · exact Or.inr ⟨o1, orest, by rw [hom, hoc], by rw [htm, htc]⟩

/-- Counterexample to C5 as stated: an entry with an existing title but an
empty `title_options` list makes `ensure_title` regenerate the options
without updating the title, so after `process_entry` the title differs from
the max-score option. -/
theorem c5_stale_title_counterexample :
    (entryAfter (process_entry backendTitlesGood scFixture entryStaleTitle false
      stEmpty)).map titleMatchesBest = some false ∧
    (entryAfter (process_entry backendTitlesGood scFixture entryStaleTitle false
      stEmpty)).map (fun e2 => e2.title) = some (some "Old") ∧
    (entryAfter (process_entry backendTitlesGood scFixture entryStaleTitle false
      stEmpty)).map (fun e2 => e2.title_options) =
      some [⟨some "New", some "Unknown", some ⟨9, 1⟩⟩] :=
  ⟨by decide, by decide, by decide⟩

/-- C5 (amended): the title/argmax cross-field invariant holds whenever the
operation chose the title itself — `ensure_title` on an entry whose title
was falsy, and the combined-path population starting from an entry with a
falsy title and no options.  (When a truthy title already exists next to an
empty options list, `ensure_title` regenerates the options but keeps the
title, which can break the invariant — see the counterexample.) -/
theorem c5_title_argmax_amended :
    (∀ (B : Backend) (e : Entry) (st : LLMState), truthyOS e.title = false →
      titleMatchesBest (ensure_title B e st).1 = true) ∧
    (∀ (sc : StyleChoice) (e : Entry) (data : Json) (e2 : Entry),
      truthyOS e.title = false → e.title_options = [] →
      populateFromData sc e data = .ok e2 → titleMatchesBest e2 = true) := by
  constructor
  · intro B e st ht
    have hg : (truthyOS e.title && !e.title_options.isEmpty) = false := by
      rw [ht]
      rfl
    simp only [ensure_title, hg, Bool.false_eq_true, if_false]
    rcases hopt : (generate_title_options B (orTextS e.narrative_text e.raw_text) st).1
      with _ | ⟨o1, orest⟩
    · dsimp only
      unfold titleMatchesBest
      rcases e.title with _ | t
      · rfl
      · rfl
    · dsimp only
      rw [if_neg (by rw [ht]; simp)]
      unfold titleMatchesBest
      dsimp only
      rcases hmx : (maxByScore o1 orest).title with _ | t
      · rfl
      · simp [hmx]
  · intro sc e data e2 ht ho h
    rcases populateFromData_title_shape sc e data e2 h with ⟨ht2, ho2⟩ | ⟨o1, orest, ho2, ht2⟩
    · unfold titleMatchesBest
      rw [ht2, ho2, ho]
      rcases e.title with _ | t
      · rfl
      · rfl
    · unfold titleMatchesBest
      rw [ht2, ho2]
      rcases hmx : (maxByScore o1 orest).title with _ | t
      · rfl
      · simp [hmx]

/-- Witness for C5 (amended): a fresh entry gets its title from the
max-score option. -/
theorem c5_title_argmax_amended_witness :
    truthyOS (entryBlank.title) = false ∧
    titleMatchesBest (ensure_title backendTitlesGood entryBlank stEmpty).1 = true :=
  ⟨by decide,
   c5_title_argmax_amended.1 backendTitlesGood entryBlank stEmpty (by decide)⟩

/-! ## C9 -/

/-- Counterexample to C9 as stated: two invocations of
`generate_title_options` that assemble the identical prompt perform two
backend calls — the generator never consults the response cache. -/
theorem c9_title_options_no_cache_counterexample :
    ((generate_title_options backendTitlesGood "Some diary text here"
        (generate_title_options backendTitlesGood "Some diary text here" stEmpty).2).2).calls =
      [Prompt.titleOptions (takeS "Some diary text here" 800),
       Prompt.titleOptions (takeS "Some diary text here" 800)] := by
  decide

/-- C9 (amended): only the narrative generator (and the combined full-
pipeline path) consult the response cache.  First conjunct: on a cache miss
with a truthy backend response, `generate_narrative` makes one backend call,
caches the enriched value, and a second identical invocation is served from
the cache with the same value and no state change.  Remaining conjuncts:
`generate_title_options`, `generate_title` and `generate_synopsis` invoke
the backend on every call with non-blank input, regardless of the cache. -/
theorem c9_cache_narrative_only :
    (∀ (B : Backend) (sc : StyleChoice) (raw : String)
       (cd : Option ConflictAnalysis) (st : LLMState) (q : String),
      trimS raw ≠ "" →
      cacheGet st (.narrativeKey (Prompt.narrative raw (detect_mood raw) cd sc)) = none →
      B (Prompt.narrative raw (detect_mood raw) cd sc) = some q →
      trimS q ≠ "" →
      ∃ st1, generate_narrative B sc raw none cd st =
          .ok (add_sensory_layer sc (trimS q), st1) ∧
        st1.calls = st.calls ++ [Prompt.narrative raw (detect_mood raw) cd sc] ∧
        generate_narrative B sc raw none cd st1 =
          .ok (add_sensory_layer sc (trimS q), st1)) ∧
    (∀ (B : Backend) (text : String) (st : LLMState), trimS text ≠ "" →
      ∃ suffix, (generate_title_options B text st).2.calls =
        st.calls ++ Prompt.titleOptions (takeS text 800) :: suffix) ∧
    (∀ (B : Backend) (text : String) (st : LLMState), trimS text ≠ "" →
      (generate_title B text st).2.calls = st.calls ++ [Prompt.title (takeS text 500)]) ∧
    (∀ (B : Backend) (text : String) (st : LLMState), trimS text ≠ "" →
      (generate_synopsis B text st).2.calls =
        st.calls ++ [Prompt.synopsis (takeS text 1500)]) := by
  refine ⟨?_, ?_, ?_, ?_⟩
  · intro B sc raw cd st q hraw hmiss hB hq
    refine ⟨cacheSet { st with calls := st.calls ++
        [Prompt.narrative raw (detect_mood raw) cd sc] }
      (.narrativeKey (Prompt.narrative raw (detect_mood raw) cd sc))
      (.strVal (add_sensory_layer sc (trimS q))), ?_, ?_, ?_⟩
    · simp only [generate_narrative, if_neg hraw, Option.getD_none, hmiss]
      simp only [narrativeRequest, callB, hB]
      simp [resTruthy, hq]
    · rfl
    · have hhit : cacheGet (cacheSet { st with calls := st.calls ++
          [Prompt.narrative raw (detect_mood raw) cd sc] }
          (.narrativeKey (Prompt.narrative raw (detect_mood raw) cd sc))
          (.strVal (add_sensory_layer sc (trimS q))))
          (.narrativeKey (Prompt.narrative raw (detect_mood raw) cd sc)) =
          some (.strVal (add_sensory_layer sc (trimS q))) := by
        simp [cacheGet, cacheSet]
      have hvne : add_sensory_layer sc (trimS q) ≠ "" := add_sensory_layer_ne sc _ hq
      simp only [generate_narrative, if_neg hraw, Option.getD_none, hhit]
      simp [hvne]
  · intro B text st htext
    simp only [generate_title_options, if_neg htext]
    rcases resTruthy ((callB B (.titleOptions (takeS text 800)) st).1) with _ | r
    · dsimp only
      refine ⟨[Prompt.title (takeS text 500)], ?_⟩
      simp only [generate_title, if_neg htext, callB]
      rcases resTruthy ((B (.title (takeS text 500))).map trimS) with _ | r2 <;> simp
    · dsimp only
      rcases extractBracket r with _ | ex
      · refine ⟨[Prompt.title (takeS text 500)], ?_⟩
        dsimp only
        simp only [generate_title, if_neg htext, callB]
        rcases resTruthy ((B (.title (takeS text 500))).map trimS) with _ | r2 <;> simp
      · dsimp only
        rcases parseJson ex with _ | j
        · refine ⟨[Prompt.title (takeS text 500)], ?_⟩
          dsimp only
          simp only [generate_title, if_neg htext, callB]
          rcases resTruthy ((B (.title (takeS text 500))).map trimS) with _ | r2 <;> simp
        · rcases j with _ | b | d | s | elems | flds
          case arr =>
            dsimp only
            rcases validOptions elems with u | vs
            · refine ⟨[Prompt.title (takeS text 500)], ?_⟩
              dsimp only
              simp only [generate_title, if_neg htext, callB]
              rcases resTruthy ((B (.title (takeS text 500))).map trimS) with _ | r2 <;> simp
            · dsimp only
              by_cases hvs : vs.isEmpty
              · rw [if_pos hvs]
                refine ⟨[Prompt.title (takeS text 500)], ?_⟩
                simp only [generate_title, if_neg htext, callB]
                rcases resTruthy ((B (.title (takeS text 500))).map trimS) with _ | r2 <;> simp
              · rw [if_neg hvs]
                exact ⟨[], rfl⟩
          all_goals
            dsimp only
            refine ⟨[Prompt.title (takeS text 500)], ?_⟩
            simp only [generate_title, if_neg htext, callB]
            rcases resTruthy ((B (.title (takeS text 500))).map trimS) with _ | r2 <;> simp
  · intro B text st htext
    simp only [generate_title, if_neg htext]
    rcases resTruthy ((callB B (.title (takeS text 500)) st).1) with _ | r <;> rfl
  · intro B text st htext
    simp only [generate_synopsis, if_neg htext]
    rcases resTruthy ((callB B (.synopsis (takeS text 1500)) st).1) with _ | r
    · rfl
    · dsimp only
      rcases (extractDoubleBrace r).bind parseJson with _ | j
      · rfl
      · rcases j with _ | b | d | s | elems | flds <;> rfl

/-- Witness for C9 (amended): a concrete cache-miss narrative run followed
by a cache hit. -/
theorem c9_cache_narrative_only_witness :
    trimS "good morning diary" ≠ "" ∧
    cacheGet stEmpty (.narrativeKey (Prompt.narrative "good morning diary"
      (detect_mood "good morning diary") none scFixture)) = none ∧
    backendJunk (Prompt.narrative "good morning diary"
      (detect_mood "good morning diary") none scFixture) = some "no json here at all" ∧
    trimS "no json here at all" ≠ "" ∧
    (∃ st1, generate_narrative backendJunk scFixture "good morning diary" none none
        stEmpty = .ok (add_sensory_layer scFixture (trimS "no json here at all"), st1) ∧
      st1.calls = stEmpty.calls ++ [Prompt.narrative "good morning diary"
        (detect_mood "good morning diary") none scFixture] ∧
      generate_narrative backendJunk scFixture "good morning diary" none none st1 =
        .ok (add_sensory_layer scFixture (trimS "no json here at all"), st1)) :=
  ⟨by decide, by rfl, by rfl, by decide,
   c9_cache_narrative_only.1 backendJunk scFixture "good morning diary" none stEmpty
     "no json here at all" (by decide) (by rfl) (by rfl) (by decide)⟩

/-! ## C3 -/

/-- Counterexample to C3 as stated: a combined-path backend response with
`tension_level` 15 and seven keywords is stored unclamped — the resulting
entry violates both the tension range and the keyword cap. -/
theorem c3_unclamped_counterexample :
    (entryAfter (process_entry backendFullRich scFixture
      { raw_text := "busy day today" } false stEmpty)).map tensionInRange =
      some false ∧
    (entryAfter (process_entry backendFullRich scFixture
      { raw_text := "busy day today" } false stEmpty)).map keywordsCapped =
      some false ∧
    (entryAfter (process_entry backendFullRich scFixture
      { raw_text := "busy day today" } false stEmpty)).map
      (fun e2 => e2.keywords.length) = some 7 :=
  ⟨by decide, by decide, by decide⟩

lemma tension_of_branch (c1 c2 : Prop) [Decidable c1] [Decidable c2]
    (s1 s2 s3 : String) :
    Dec.leb ⟨1, 0⟩ (if c1 then (s1, (⟨4, 0⟩ : Dec))
      else if c2 then (s2, (⟨6, 0⟩ : Dec)) else (s3, (⟨1, 0⟩ : Dec))).2 = true ∧
    Dec.leb (if c1 then (s1, (⟨4, 0⟩ : Dec))
      else if c2 then (s2, (⟨6, 0⟩ : Dec)) else (s3, (⟨1, 0⟩ : Dec))).2 ⟨10, 0⟩ = true := by
  by_cases h1 : c1
  · rw [if_pos h1]
    exact ⟨by rfl, by rfl⟩
  · rw [if_neg h1]
    by_cases h2 : c2
    · rw [if_pos h2]
      exact ⟨by rfl, by rfl⟩
    · rw [if_neg h2]
      exact ⟨by rfl, by rfl⟩

/-- C3 (amended): the well-formedness invariant holds where the code
enforces it — the default profile and the deterministic keyword fallback
keep `tension_level` in [1,10], and the sequential synopsis generator caps
keywords at five — but the parse paths store backend-supplied values
unclamped, so a combined-path response can leave the stated ranges (see the
counterexample). -/
theorem c3_wellformedness_enforced_paths :
    conflictDefault.tension_level = ⟨1, 0⟩ ∧
    (∀ text : String,
      Dec.leb ⟨1, 0⟩ (fallback_analysis text).tension_level = true ∧
      Dec.leb (fallback_analysis text).tension_level ⟨10, 0⟩ = true) ∧
    (∀ (B : Backend) (text : String) (st : LLMState),
      (generate_synopsis B text st).1.keywords.length ≤ 5) := by
  refine ⟨rfl, ?_, ?_⟩
  · intro text
    unfold fallback_analysis
    dsimp only
    exact tension_of_branch _ _ _ _ _
  · intro B text st
    simp only [generate_synopsis]
    split
    · simp
    · rcases resTruthy ((callB B (.synopsis (takeS text 1500)) st).1) with _ | r
      · simp
      · dsimp only
        rcases (extractDoubleBrace r).bind parseJson with _ | j
        · simp
        · rcases j with _ | b | d | s | elems | flds <;> dsimp only <;> simp

/-! ## C4 -/

lemma suffixAtPair_shape (c : Char) :
    ∀ (cs t : List Char), suffixAtPair c cs = some t →
      ∃ rest, t = c :: c :: rest := by
  intro cs
  induction cs with
  | nil => intro t h; simp [suffixAtPair] at h
  | cons a rest ih =>
    intro t h
    rcases rest with _ | ⟨b, rest2⟩
    · simp [suffixAtPair] at h
    · unfold suffixAtPair at h
      split at h
      · next hab =>
        obtain ⟨h1, h2⟩ := Bool.and_eq_true_iff.mp hab
        have ha : a = c := by simpa using h1
        have hb : b = c := by simpa using h2
        have ht : a :: b :: rest2 = t := by simpa using h
        refine ⟨rest2, ?_⟩
        rw [← ht, ha, hb]
      · exact ih t h

lemma firstPairIdx_le (c : Char) :
    ∀ (cs : List Char) (i : Nat), firstPairIdx c cs = some i → i + 2 ≤ cs.length := by
  intro cs
  induction cs with
  | nil => intro i h; simp [firstPairIdx] at h
  | cons a rest ih =>
    intro i h
    rcases rest with _ | ⟨b, rest2⟩
    · simp [firstPairIdx] at h
    · unfold firstPairIdx at h
      split at h
      · obtain rfl : (0 : Nat) = i := by simpa using h
        simp
      · rcases hj : firstPairIdx c (b :: rest2) with _ | j
        · rw [hj] at h
          simp at h
        · rw [hj] at h
          obtain rfl : j + 1 = i := by simpa using h
          have := ih j hj
          simp only [List.length_cons] at this ⊢
          omega

lemma extractDoubleBrace_shape (r t : String)
    (h : extractDoubleBrace r = some t) :
    ∃ rest, t.data = '{' :: '{' :: rest := by
  unfold extractDoubleBrace at h
  rcases hs : suffixAtPair '{' r.data with _ | t0
  · rw [hs] at h
    simp at h
  · rw [hs] at h
    simp only [Option.some_bind] at h
    rcases hf : firstPairIdx '}' t0.reverse with _ | rr
    · rw [hf] at h
      simp at h
    · rw [hf] at h
      simp only [Option.map_some'] at h
      obtain rfl : (⟨t0.take (t0.length - rr)⟩ : String) = t := by simpa using h
      obtain ⟨rest0, rfl⟩ := suffixAtPair_shape '{' r.data t0 hs
      have hrr := firstPairIdx_le '}' _ rr hf
      rw [List.length_reverse] at hrr
      simp only [List.length_cons] at hrr
      rcases hk : ('{' :: '{' :: rest0 : List Char).length - rr with _ | k
      · simp only [List.length_cons] at hk
        omega
      · rcases hk2 : k with _ | k2
        · simp only [List.length_cons] at hk
          omega
        · exact ⟨rest0.take k2, rfl⟩

lemma parseMems_open_brace (fuel : Nat) (rest : List Char) :
    parseMems fuel ('{' :: rest) = none := by
  cases fuel <;> rfl

lemma parseV_double_brace (fuel : Nat) (rest : List Char) :
    parseV fuel ('{' :: '{' :: rest) = none := by
  cases fuel with
  | zero => rfl
  | succ f =>
    show (parseMems f ('{' :: rest)).map _ = none
    rw [parseMems_open_brace]
    rfl

/-- The `r'{{.*}}'` extraction of `generate_synopsis` can never feed
`json.loads` a parseable value: any match starts with two adjacent opening
braces, which no JSON value does. -/
lemma extracted_double_brace_never_parses (r : String) :
    (extractDoubleBrace r).bind parseJson = none := by
  rcases hdb : extractDoubleBrace r with _ | t
  · rfl
  · obtain ⟨rest, hdata⟩ := extractDoubleBrace_shape r t hdb
    simp only [Option.some_bind, parseJson, hdata]
    rw [parseV_double_brace]
    rfl

/-- C4: the spec (and the repository's own tests) expect `generate_synopsis`
to return the parsed logline/synopsis/keywords of a JSON-object response,
but its extraction pattern is `r'{{.*}}'` — it demands adjacent double
braces, so the parse branch is dead code and the function returns the
all-empty triple for every input and every backend behaviour. -/
theorem c4_synopsis_always_empty (B : Backend) (text : String) (st : LLMState) :
    (generate_synopsis B text st).1 = ⟨ "", "", []⟩ := by
  simp only [generate_synopsis]
  split
  · rfl
  · rcases resTruthy ((callB B (.synopsis (takeS text 1500)) st).1) with _ | r
    · rfl
    · dsimp only
      rw [extracted_double_brace_never_parses r]

/-- Witness-style instance of C4 at the repository's own test input: the
mocked response is a plain JSON object, and the parsed fields the test
asserts never materialise. -/
theorem c4_synopsis_always_empty_witness :
    (generate_synopsis (fun _ => some
        "\x7b\"logline\": \"A secret meeting reveals a truth.\", \"synopsis\": \"The protagonist discovers a hidden agenda.\", \"keywords\": [\"secret\", \"truth\", \"team\", \"mystery\", \"revelation\"]\x7d")
      "Some long narrative about a secret meeting." stEmpty).1 = ⟨ "", "", []⟩ :=
  c4_synopsis_always_empty _ "Some long narrative about a secret meeting." stEmpty
